import Mathlib

/-!
# Verification of the xbus_lib protocol codec

A shallow embedding of the Xbus message codec (`src/xbus/xbus.cpp`,
`src/xbus/xbus_parser.cpp`) and of the byte-stream framer of
`src/main.cpp` (`XbusMessageProcessor::processIncomingData`), with proofs
of the specified envelope round-trip, checksum, framing, TLV-parsing and
fixed-point properties.

Modelling conventions:
* A C `uint8_t*` buffer is a total map `Nat → Nat` from byte offsets to
  stored bytes; reads reduce mod 256, mirroring the `& 0xff` masks and the
  `uint8_t` storage type of the source.
* Bounded machine integers are `Nat`/`Int` with explicit `% 2^w`.
* `double` values produced by `XbusParser::readFP1632` are represented
  exactly as rationals: a 48-bit two's-complement integer converted to
  `double` and divided by `2^32` incurs no rounding (48 < 53 mantissa
  bits, and division by a power of two only shifts the exponent).
* `float` fields of `SensorData` are represented by their IEEE-754 bit
  patterns (the source obtains them by `memcpy` reinterpretation of the
  big-endian `uint32_t`, which is a bijection on bit patterns).
-/

namespace Xbus

/-- Byte-addressed memory, the model of a C `uint8_t*` buffer: a total map
from offsets to stored byte values. -/
def Buf : Type := Nat → Nat

/-- Store one byte, `buf[i] = v`; `uint8_t` storage keeps `v % 256`. -/
def writeB (m : Buf) (i v : Nat) : Buf := fun j => if j = i then v % 256 else m j

/-- `Xbus::checkPreamble`: `xbusMessage[0] == 0xFA`. -/
def checkPreamble (m : Buf) : Bool := m 0 % 256 == 250

/-- `Xbus::getBusId`: `xbusMessage[1] & 0xff`. -/
def getBusId (m : Buf) : Nat := m 1 % 256

/-- `Xbus::setBusId`: `xbusMessage[1] = busId & 0xff`. -/
def setBusId (m : Buf) (busId : Nat) : Buf := writeB m 1 busId

/-- `Xbus::getMessageId`: `xbusMessage[2] & 0xff`. -/
def getMessageId (m : Buf) : Nat := m 2 % 256

/-- `Xbus::setMessageId`: `xbusMessage[2] = messageId & 0xff`. -/
def setMessageId (m : Buf) (messageId : Nat) : Buf := writeB m 2 messageId

/-- `Xbus::getPayloadLength`: the length byte at offset 3, unless it is the
extender byte `0xFF`, in which case the big-endian 16-bit value at
offsets 4–5. -/
def getPayloadLength (m : Buf) : Nat :=
  if m 3 % 256 ≠ 255 then m 3 % 256 else m 5 % 256 + (m 4 % 256) * 256

/-- `Xbus::setPayloadLength`: direct byte for lengths `< 255`, otherwise the
`0xFF` extender followed by the big-endian 16-bit length.  The C parameter is
a `uint16_t`; theorems about it assume `payloadLength < 65536`. -/
def setPayloadLength (m : Buf) (payloadLength : Nat) : Buf :=
  if payloadLength < 255 then writeB m 3 payloadLength
  else writeB (writeB (writeB m 3 255) 4 (payloadLength >>> 8)) 5 payloadLength

/-- `Xbus::createMessage`: preamble, bus id, message id, length field. -/
def createMessage (m : Buf) (bid mid len : Nat) : Buf :=
  setPayloadLength (setMessageId (setBusId (writeB m 0 250) bid) mid) len

/-- `Xbus::getRawLength`: payload length plus 7 (extended) or 5 (plain). -/
def getRawLength (m : Buf) : Nat :=
  getPayloadLength m + (if m 3 % 256 = 255 then 7 else 5)

/-- `Xbus::getPointerToPayload` as an offset: 6 when the length byte is the
`0xFF` extender, else 4. -/
def payloadOffset (m : Buf) : Nat := if m 3 % 256 = 255 then 6 else 4

/-- The `memcpy` of `len` payload bytes into the payload region located by
`Xbus::getPointerToPayload` (as done by `sendMessage` in `src/main.cpp`). -/
def copyPayload (m : Buf) (p : Nat → Nat) (len : Nat) : Buf := fun j =>
  if payloadOffset m ≤ j ∧ j < payloadOffset m + len then p (j - payloadOffset m) % 256
  else m j

/-- Sum of the `cnt` bytes `m s, m (s+1), …` (each read as a `uint8_t`). -/
def sumFrom (m : Buf) (s : Nat) : Nat → Nat
  | 0 => 0
  | cnt + 1 => m s % 256 + sumFrom m (s + 1) cnt

/-- `Xbus::insertChecksum`: the running `uint8_t` starts at 0 and subtracts
bytes `1 … nBytes-2`, i.e. it ends at `(-(sum)) mod 256`; the result is
written to the last byte. -/
def insertChecksum (m : Buf) : Buf :=
  let n := getRawLength m
  writeB m (n - 1) (256 - sumFrom m 1 (n - 2) % 256)

/-- `Xbus::verifyChecksum`: the `uint8_t` sum of bytes `1 … nBytes-1` must
be 0 mod 256. -/
def verifyChecksum (m : Buf) : Bool :=
  sumFrom m 1 (getRawLength m - 1) % 256 == 0

/-- A byte list viewed as a buffer (out-of-range reads give 0). -/
def bufOfList (l : List Nat) : Buf := fun i => l.getD i 0

/-- The length field bytes `Xbus::createRawMessage` emits for a payload
length. -/
def rawLenField (len : Nat) : List Nat :=
  if len < 255 then [len % 256] else [255, (len >>> 8) % 256, len % 256]

/-- Bytes 1… of the frame `Xbus::createRawMessage` emits: the forced
`XBUS_MASTERDEVICE` bus id `0xFF`, the input's message id, the re-encoded
length field and the input's payload bytes. -/
def rawBody (m : Buf) : List Nat :=
  let len := getPayloadLength m
  255 :: getMessageId m :: rawLenField len
    ++ (List.range len).map (fun i => m (payloadOffset m + i) % 256)

/-- `Xbus::createRawMessage`: preamble, then `rawBody`, then the checksum
byte accumulated as a `uint8_t` starting at 0 and subtracting every body
byte (so it equals `(-(sum of body)) mod 256`). -/
def createRawMessage (m : Buf) : List Nat :=
  250 :: rawBody m ++ [(256 - (rawBody m).sum % 256) % 256]

/-- The outbound construction of `sendMessage` in `src/main.cpp`:
`Xbus::createMessage`, `memcpy` of the payload into the payload region,
`Xbus::insertChecksum`. -/
def buildFrame (m0 : Buf) (bid mid len : Nat) (p : Nat → Nat) : Buf :=
  insertChecksum (copyPayload (createMessage m0 bid mid len) p len)

end Xbus

namespace Framer

/-- The synchronizer state of `XbusMessageProcessor` (`src/main.cpp`):
`seeking = true` is `SyncState::WaitingForPreamble`, `false` is
`SyncState::ReadingMessage`; `buf` is `m_messageBuffer`, `expected` is
`m_expectedLength` (0 = unknown). -/
structure State where
  seeking : Bool
  buf : List Nat
  expected : Nat
deriving DecidableEq

/-- The initial synchronizer state of `XbusMessageProcessor`. -/
def initState : State := ⟨true, [], 0⟩

/-- A read of `m_messageBuffer.data()[i]`.  The source indexes the raw
vector storage, so an offset at or past `buf.length` reads memory the
stream has not filled; `junk i` models whatever that uninitialized memory
holds (reduced to a byte). -/
def readRaw (buf : List Nat) (junk : Nat → Nat) (i : Nat) : Nat :=
  if i < buf.length then buf.getD i 0 else junk i % 256

/-- `Xbus::getRawLength(m_messageBuffer.data())` over the partially filled
accumulation buffer: the direct length byte plus 5, or — when the length
byte is the `0xFF` extender — the big-endian 16-bit length at raw offsets
4–5 plus 7. -/
def rawLenPartial (buf : List Nat) (junk : Nat → Nat) : Nat :=
  if readRaw buf junk 3 % 256 = 255 then
    readRaw buf junk 5 % 256 + (readRaw buf junk 4 % 256) * 256 + 7
  else readRaw buf junk 3 % 256 + 5

/-- The tail of the `ReadingMessage` branch once the byte is appended and
any length determination done: complete-frame check (hand the buffer
downstream, reset to seeking) then the `> 1000` overflow safety valve. -/
def finishChecks (buf : List Nat) (e : Nat) : State × Option (List Nat) :=
  if 0 < e ∧ e ≤ buf.length then (⟨true, buf, 0⟩, some buf)
  else if 1000 < buf.length then (⟨true, buf, 0⟩, none)
  else (⟨false, buf, e⟩, none)

/-- One byte of `XbusMessageProcessor::processIncomingData`.  In
`WaitingForPreamble` a `0xFA` byte starts a fresh buffer; in
`ReadingMessage` the byte is appended, the expected total is computed via
`Xbus::getRawLength` once the buffer holds ≥ 4 bytes and is still unknown
(aborting to seeking when outside `[5, 1000]`), then the completion and
overflow checks run.  The emitted value is the buffer handed to
`processCompleteMessage`. -/
def step (junk : Nat → Nat) (st : State) (bIn : Nat) : State × Option (List Nat) :=
  let b := bIn % 256
  if st.seeking then
    if b = 250 then (⟨false, [b], 0⟩, none) else (st, none)
  else
    let buf := st.buf ++ [b]
    if 4 ≤ buf.length ∧ st.expected = 0 then
      let e := rawLenPartial buf junk
      if e < 5 ∨ 1000 < e then (⟨true, buf, 0⟩, none)
      else finishChecks buf e
    else finishChecks buf st.expected

/-- Feed a byte sequence through the synchronizer, collecting every frame
handed downstream. -/
def run (junk : Nat → Nat) (st : State) : List Nat → State × List (List Nat)
  | [] => (st, [])
  | b :: rest =>
    let (st', out) := step junk st b
    let (st'', outs) := run junk st' rest
    (st'', (match out with | some f => [f] | none => []) ++ outs)

end Framer

namespace XbusParser

/-- Read one payload byte (`uint8_t`). -/
def readByte (l : List Nat) (i : Nat) : Nat := l.getD i 0 % 256

/-- `XbusParser::readUint16`: big-endian. -/
def readU16 (l : List Nat) (i : Nat) : Nat := readByte l i * 256 + readByte l (i + 1)

/-- `XbusParser::readUint32`: big-endian. -/
def readU32 (l : List Nat) (i : Nat) : Nat :=
  readByte l i * 2 ^ 24 + readByte l (i + 1) * 2 ^ 16
    + readByte l (i + 2) * 2 ^ 8 + readByte l (i + 3)

/-- The `static_cast<int16_t>` of a 16-bit word: two's complement. -/
def toInt16 (w : Nat) : Int :=
  if w % 65536 < 32768 then (w % 65536 : Int) else (w % 65536 : Int) - 65536

/-- `XbusParser::readFP1632`, exactly: 32-bit big-endian fractional part,
16-bit big-endian two's-complement integer part, combined as the 48-bit
signed value `(integer << 32) | fractional` in 64-bit arithmetic and then
divided by `2^32`.  Since `fractional < 2^32` fills exactly the zeroed low
bits of the shifted integer part, the bitwise-or is this addition; the
`int64 → double` conversion and the division by `2^32` are exact (48
significant bits < 53), so the source's `double` is this rational. -/
def readFP1632 (l : List Nat) (i : Nat) : ℚ :=
  ((toInt16 (readU16 l (i + 4)) * 2 ^ 32 + (readU32 l i : Int) : Int) : ℚ) / 2 ^ 32

/-- The decoded sensor sample (`SensorData` of `src/xbus/xbus_parser.h`,
plus the temperature group used by `src/xbus/xbus_parser.cpp`).  `float`
members hold their IEEE-754 bit patterns (`Quaternion()` defaults to
`(1,0,0,0)`, whose `q0` pattern is `0x3F800000`); `double` members hold
the exact rational of the stored `double`.  The field defaults are the
C++ default constructors. -/
structure SensorData where
  hasPacketCounter : Bool := false
  packetCounter : Nat := 0
  hasSampleTimeFine : Bool := false
  sampleTimeFine : Nat := 0
  hasEulerAngles : Bool := false
  roll : Nat := 0
  pitch : Nat := 0
  yaw : Nat := 0
  hasStatusWord : Bool := false
  statusWord : Nat := 0
  hasLatLon : Bool := false
  latitude : ℚ := 0
  longitude : ℚ := 0
  hasAltitudeEllipsoid : Bool := false
  altitudeEllipsoid : ℚ := 0
  hasVelocityXYZ : Bool := false
  velX : ℚ := 0
  velY : ℚ := 0
  velZ : ℚ := 0
  hasUtcTime : Bool := false
  nanoseconds : Nat := 0
  year : Nat := 0
  month : Nat := 0
  day : Nat := 0
  hour : Nat := 0
  minute : Nat := 0
  second : Nat := 0
  flags : Nat := 0
  hasQuaternion : Bool := false
  q0 : Nat := 0x3F800000
  q1 : Nat := 0
  q2 : Nat := 0
  q3 : Nat := 0
  hasBarometricPressure : Bool := false
  pressure : Nat := 0
  hasAcceleration : Bool := false
  accX : Nat := 0
  accY : Nat := 0
  accZ : Nat := 0
  hasRateOfTurn : Bool := false
  gyrX : Nat := 0
  gyrY : Nat := 0
  gyrZ : Nat := 0
  hasMagneticField : Bool := false
  magX : Nat := 0
  magY : Nat := 0
  magZ : Nat := 0
  hasTemperature : Bool := false
  temperature : Nat := 0
deriving DecidableEq

/-- One TLV record dispatch of the `switch (xdi)` in
`XbusParser::parseMTData2`: a known tag whose declared size equals the
expected size decodes the fields and sets the presence flag; any other
record leaves the sample unchanged (the caller advances by the declared
size either way).  `body` is the record's `size` value bytes.  The XDI
constants are those of `src/xbus/xbus_parser.h`; `XDI::TEMPERATURE` is
referenced by `xbus_parser.cpp` but its declaration is missing from the
headers under `src/`, so its value `0x0810` is taken from the temperature
record exercised in `src/test/test_xbus_parser.cpp`. -/
def applyRecord (xdi size : Nat) (body : List Nat) (d : SensorData) : SensorData :=
  if xdi = 0x1020 then
    if size = 2 then
      { d with packetCounter := readU16 body 0, hasPacketCounter := true }
    else d
  else if xdi = 0x1060 then
    if size = 4 then
      { d with sampleTimeFine := readU32 body 0, hasSampleTimeFine := true }
    else d
  else if xdi = 0x2030 then
    if size = 12 then
      { d with roll := readU32 body 0, pitch := readU32 body 4, yaw := readU32 body 8,
               hasEulerAngles := true }
    else d
  else if xdi = 0xE020 then
    if size = 4 then
      { d with statusWord := readU32 body 0, hasStatusWord := true }
    else d
  else if xdi = 0x5042 then
    if size = 12 then
      { d with latitude := readFP1632 body 0, longitude := readFP1632 body 6,
               hasLatLon := true }
    else d
  else if xdi = 0x5022 then
    if size = 6 then
      { d with altitudeEllipsoid := readFP1632 body 0, hasAltitudeEllipsoid := true }
    else d
  else if xdi = 0xD012 then
    if size = 18 then
      { d with velX := readFP1632 body 0, velY := readFP1632 body 6,
               velZ := readFP1632 body 12, hasVelocityXYZ := true }
    else d
  else if xdi = 0x1010 then
    if size = 12 then
      { d with nanoseconds := readU32 body 0, year := readU16 body 4,
               month := readByte body 6, day := readByte body 7, hour := readByte body 8,
               minute := readByte body 9, second := readByte body 10,
               flags := readByte body 11, hasUtcTime := true }
    else d
  else if xdi = 0x2010 then
    if size = 16 then
      { d with q0 := readU32 body 0, q1 := readU32 body 4, q2 := readU32 body 8,
               q3 := readU32 body 12, hasQuaternion := true }
    else d
  else if xdi = 0x3010 then
    if size = 4 then
      { d with pressure := readU32 body 0, hasBarometricPressure := true }
    else d
  else if xdi = 0x4020 then
    if size = 12 then
      { d with accX := readU32 body 0, accY := readU32 body 4, accZ := readU32 body 8,
               hasAcceleration := true }
    else d
  else if xdi = 0x8020 then
    if size = 12 then
      { d with gyrX := readU32 body 0, gyrY := readU32 body 4, gyrZ := readU32 body 8,
               hasRateOfTurn := true }
    else d
  else if xdi = 0xC020 then
    if size = 12 then
      { d with magX := readU32 body 0, magY := readU32 body 4, magZ := readU32 body 8,
               hasMagneticField := true }
    else d
  else if xdi = 0x0810 then
    if size = 4 then
      { d with temperature := readU32 body 0, hasTemperature := true }
    else d
  else d

/-- The `while (index < payloadLength)` loop of `XbusParser::parseMTData2`:
stop when fewer than 3 bytes remain (`index + 3 > payloadLength`), read the
big-endian tag and the size byte, stop when fewer than `size` bytes remain
(`index + size > payloadLength`), otherwise dispatch on the record and
advance past its declared size. -/
def parseRecs (rem : List Nat) (d : SensorData) : SensorData :=
  match rem with
  | t1 :: t2 :: sz :: rest =>
    let size := sz % 256
    if rest.length < size then d
    else parseRecs (rest.drop size)
      (applyRecord ((t1 % 256) * 256 + t2 % 256) size (rest.take size) d)
  | _ => d
termination_by rem.length
decreasing_by simp; omega

/-- The tags of the complete records the parse loop dispatches on, in
order (a trailing truncated record is never dispatched). -/
def tagsOf (rem : List Nat) : List Nat :=
  match rem with
  | t1 :: t2 :: sz :: rest =>
    let size := sz % 256
    if rest.length < size then []
    else ((t1 % 256) * 256 + t2 % 256) :: tagsOf (rest.drop size)
  | _ => []
termination_by rem.length
decreasing_by simp; omega

/-- The payload bytes `XbusParser::parseMTData2` can read: `payloadLength`
bytes starting at the payload offset of the frame. -/
def payloadList (m : Xbus.Buf) : List Nat :=
  (List.range (Xbus.getPayloadLength m)).map fun i => m (Xbus.payloadOffset m + i) % 256

/-- `XbusParser::parseMTData2` with its in/out parameter made explicit:
rejects (leaving the caller's record untouched) unless the preamble is
`0xFA` and the message id is `XMID_MtData2 = 0x36`; otherwise resets the
record to `SensorData()` and walks the TLV payload. -/
def parseMTData2 (m : Xbus.Buf) (d0 : SensorData) : Bool × SensorData :=
  if ¬ Xbus.checkPreamble m then (false, d0)
  else if Xbus.getMessageId m ≠ 0x36 then (false, d0)
  else (true, parseRecs (payloadList m) {})

end XbusParser

namespace XbusParser

/-- `round` of C's `<cmath>`: round half away from zero, on exact
rationals. -/
def roundHalfAway (q : ℚ) : ℤ := if 0 ≤ q then ⌊q + 1 / 2⌋ else -⌊-q + 1 / 2⌋

/-- `XbusParserTest::doubleToFP1632` (`src/test/test_xbus_parser.cpp`), the
documented inverse of `readFP1632`, in exact rational arithmetic:
`scaled = round(value * 2^32)` as a signed 64-bit integer; its low 32 bits
are the fractional field and the next 16 bits the integer field, each
emitted big-endian (`frac = scaled mod 2^32` and the arithmetic shift
`scaled >> 32` is `(scaled - frac) / 2^32`).  For the magnitudes the spec
exercises (|v| ≤ 122) the `double` products `v * 2^32` are exact, so the
only deviation from the C version is the sub-ulp gap between a decimal
literal and its nearest `double`, far below the 1e-9 tolerance. -/
def doubleToFP1632 (v : ℚ) : List Nat :=
  let scaled : ℤ := roundHalfAway (v * 2 ^ 32)
  let frac : Nat := (scaled % 2 ^ 32).toNat
  let intBits : Nat := ((scaled - frac) / 2 ^ 32 % 2 ^ 16).toNat
  [frac / 2 ^ 24 % 256, frac / 2 ^ 16 % 256, frac / 2 ^ 8 % 256, frac % 256,
   intBits / 256, intBits % 256]

/-- The field groups `XbusParser::formatSensorData` can render. -/
inductive FieldTag where
  | packetCounter
  | sampleTimeFine
  | eulerAngles
  | statusWord
  | latLon
  | altitudeEllipsoid
  | velocityXYZ
  | utcTime
  | quaternion
  | barometricPressure
  | acceleration
  | rateOfTurn
  | magneticField
  | temperature
deriving DecidableEq

/-- The presence flag of a field group. -/
def hasField (d : SensorData) : FieldTag → Bool
  | .packetCounter => d.hasPacketCounter
  | .sampleTimeFine => d.hasSampleTimeFine
  | .eulerAngles => d.hasEulerAngles
  | .statusWord => d.hasStatusWord
  | .latLon => d.hasLatLon
  | .altitudeEllipsoid => d.hasAltitudeEllipsoid
  | .velocityXYZ => d.hasVelocityXYZ
  | .utcTime => d.hasUtcTime
  | .quaternion => d.hasQuaternion
  | .barometricPressure => d.hasBarometricPressure
  | .acceleration => d.hasAcceleration
  | .rateOfTurn => d.hasRateOfTurn
  | .magneticField => d.hasMagneticField
  | .temperature => d.hasTemperature

/-- `XbusParser::formatSensorData`, abstracted to the sequence of rendered
field groups: each `if (data.hasX)` block appends one comma-separated
piece for its group (the `hasData` flag only selects the separator), so
the output is determined by which groups render and in which order.  Each
entry carries the `%.Nf` decimal precision of the group's format string
(0 for the integer, hex and timestamp groups).  The numeric text itself
and the fixed-size output buffer (`snprintf`/`appendToBuffer`), which can
only truncate, are abstracted away. -/
def renderFields (d : SensorData) : List (FieldTag × Nat) :=
  (if d.hasPacketCounter then [(FieldTag.packetCounter, 0)] else [])
    ++ (if d.hasSampleTimeFine then [(FieldTag.sampleTimeFine, 0)] else [])
    ++ (if d.hasUtcTime then [(FieldTag.utcTime, 0)] else [])
    ++ (if d.hasEulerAngles then [(FieldTag.eulerAngles, 2)] else [])
    ++ (if d.hasQuaternion then [(FieldTag.quaternion, 6)] else [])
    ++ (if d.hasAcceleration then [(FieldTag.acceleration, 6)] else [])
    ++ (if d.hasRateOfTurn then [(FieldTag.rateOfTurn, 6)] else [])
    ++ (if d.hasMagneticField then [(FieldTag.magneticField, 6)] else [])
    ++ (if d.hasTemperature then [(FieldTag.temperature, 6)] else [])
    ++ (if d.hasLatLon then [(FieldTag.latLon, 8)] else [])
    ++ (if d.hasAltitudeEllipsoid then [(FieldTag.altitudeEllipsoid, 3)] else [])
    ++ (if d.hasVelocityXYZ then [(FieldTag.velocityXYZ, 4)] else [])
    ++ (if d.hasBarometricPressure then [(FieldTag.barometricPressure, 2)] else [])
    ++ (if d.hasStatusWord then [(FieldTag.statusWord, 0)] else [])

/-- The order in which `XbusParser::formatSensorData` renders the groups,
with each group's decimal precision. -/
def codeRenderOrder : List (FieldTag × Nat) :=
  [(FieldTag.packetCounter, 0), (FieldTag.sampleTimeFine, 0), (FieldTag.utcTime, 0),
   (FieldTag.eulerAngles, 2), (FieldTag.quaternion, 6), (FieldTag.acceleration, 6),
   (FieldTag.rateOfTurn, 6), (FieldTag.magneticField, 6), (FieldTag.temperature, 6),
   (FieldTag.latLon, 8), (FieldTag.altitudeEllipsoid, 3), (FieldTag.velocityXYZ, 4),
   (FieldTag.barometricPressure, 2), (FieldTag.statusWord, 0)]

/-- The enumeration order of the spec's §3 data model (the order the claim
asserts for `formatSensorData` output). -/
def specSection3Order : List FieldTag :=
  [FieldTag.packetCounter, FieldTag.sampleTimeFine, FieldTag.eulerAngles,
   FieldTag.statusWord, FieldTag.latLon, FieldTag.altitudeEllipsoid,
   FieldTag.velocityXYZ, FieldTag.utcTime, FieldTag.quaternion,
   FieldTag.barometricPressure, FieldTag.acceleration, FieldTag.rateOfTurn,
   FieldTag.magneticField, FieldTag.temperature]

/-- A sample with Euler angles and UTC time present and nothing else. -/
def eulerUtcSample : SensorData := { hasEulerAngles := true, hasUtcTime := true }

/-- A payload that is an exact concatenation of complete TLV records: tag
(2 bytes), size byte, and `size mod 256` value bytes each. -/
inductive IsRecs : List Nat → Prop
  | nil : IsRecs []
  | cons (t1 t2 sz : Nat) (body rest : List Nat) (hb : body.length = sz % 256)
      (h : IsRecs rest) : IsRecs (t1 :: t2 :: sz :: (body ++ rest))

/-- The declared size `parseMTData2` requires before it decodes a tag's
fields (`none` for a tag its `switch` does not know). -/
def expectedSize (xdi : Nat) : Option Nat :=
  if xdi = 0x1020 then some 2
  else if xdi = 0x1060 then some 4
  else if xdi = 0x2030 then some 12
  else if xdi = 0xE020 then some 4
  else if xdi = 0x5042 then some 12
  else if xdi = 0x5022 then some 6
  else if xdi = 0xD012 then some 18
  else if xdi = 0x1010 then some 12
  else if xdi = 0x2010 then some 16
  else if xdi = 0x3010 then some 4
  else if xdi = 0x4020 then some 12
  else if xdi = 0x8020 then some 12
  else if xdi = 0xC020 then some 12
  else if xdi = 0x0810 then some 4
  else none

/-- The XDI tags `parseMTData2` knows. -/
def knownTags : List Nat :=
  [0x1020, 0x1060, 0x2030, 0xE020, 0x5042, 0x5022, 0xD012, 0x1010, 0x2010,
   0x3010, 0x4020, 0x8020, 0xC020, 0x0810]

/-- For a known tag, its field group carries its C++ default-constructed
value and a cleared presence flag; `true` for tags outside the catalog. -/
def fieldAbsent (t : Nat) (d : SensorData) : Bool :=
  if t = 0x1020 then !d.hasPacketCounter && d.packetCounter == 0
  else if t = 0x1060 then !d.hasSampleTimeFine && d.sampleTimeFine == 0
  else if t = 0x2030 then !d.hasEulerAngles && d.roll == 0 && d.pitch == 0 && d.yaw == 0
  else if t = 0xE020 then !d.hasStatusWord && d.statusWord == 0
  else if t = 0x5042 then !d.hasLatLon && d.latitude == 0 && d.longitude == 0
  else if t = 0x5022 then !d.hasAltitudeEllipsoid && d.altitudeEllipsoid == 0
  else if t = 0xD012 then !d.hasVelocityXYZ && d.velX == 0 && d.velY == 0 && d.velZ == 0
  else if t = 0x1010 then !d.hasUtcTime && d.nanoseconds == 0 && d.year == 0
    && d.month == 0 && d.day == 0 && d.hour == 0 && d.minute == 0 && d.second == 0
    && d.flags == 0
  else if t = 0x2010 then !d.hasQuaternion && d.q0 == 0x3F800000 && d.q1 == 0
    && d.q2 == 0 && d.q3 == 0
  else if t = 0x3010 then !d.hasBarometricPressure && d.pressure == 0
  else if t = 0x4020 then !d.hasAcceleration && d.accX == 0 && d.accY == 0 && d.accZ == 0
  else if t = 0x8020 then !d.hasRateOfTurn && d.gyrX == 0 && d.gyrY == 0 && d.gyrZ == 0
  else if t = 0xC020 then !d.hasMagneticField && d.magX == 0 && d.magY == 0 && d.magZ == 0
  else if t = 0x0810 then !d.hasTemperature && d.temperature == 0
  else true

end XbusParser

namespace Framer

/-- Uninitialized memory modelled as all zeroes (one concrete instance of
what the out-of-bounds reads of `m_messageBuffer.data()` can return). -/
def zeroJunk : Nat → Nat := fun _ => 0

/-- A valid extended-length telemetry frame: payload length 255 (encoded
`FF 00 FF`), all payload bytes 0, checksum `0xCD`. -/
def extFrameExample : List Nat :=
  250 :: 255 :: 54 :: 255 :: 0 :: 255 :: (List.replicate 255 0 ++ [205])

/-- A valid 5-byte frame: GotoConfig-style message `FA FF 3E 00 C3`. -/
def wakeupFrame : List Nat := [250, 255, 62, 0, 195]

/-- A valid 5-byte frame: ResetAck message `FA FF 41 00 C0`. -/
def resetAckFrame : List Nat := [250, 255, 65, 0, 192]

/-- Five garbage bytes containing a `0xFA`: the preamble byte followed by
`00 00 10 00`. -/
def gapWithPreamble : List Nat := [250, 0, 0, 16, 0]

/-- A valid frame in the non-extended length form: preamble `0xFA`, length
byte below the `0xFF` escape, total size `length byte + 5`, all bytes in
range, passing checksum. -/
def ValidShortFrame (f : List Nat) : Prop :=
  f.getD 0 0 = 250 ∧ f.getD 3 0 < 255 ∧ f.length = f.getD 3 0 + 5 ∧
  (∀ b ∈ f, b < 256) ∧ Xbus.verifyChecksum (Xbus.bufOfList f) = true

end Framer

theorem filter_cons_seg {α : Type} (p : α → Bool) (a : α) (l : List α) :
    (a :: l).filter p = (if p a = true then [a] else []) ++ l.filter p := by
  by_cases h : p a = true <;> simp [List.filter_cons, h]

/-- C4: `formatSensorData` does render exactly the present field groups,
comma-joined with the fixed per-group precisions, but in the source's
order (packet counter, fine sample time, UTC time, Euler angles,
quaternion, acceleration, rate of turn, magnetic field, temperature,
latitude/longitude, ellipsoidal altitude, velocity, barometric pressure,
status word), not in the §3 enumeration order: a sample carrying both
Euler angles and a UTC time renders the UTC time first, while §3 lists
Euler angles before UTC time. -/
theorem formatSensorData_spec_order_cex :
    ¬ (XbusParser.renderFields XbusParser.eulerUtcSample).map Prod.fst
        = XbusParser.specSection3Order.filter
            (XbusParser.hasField XbusParser.eulerUtcSample) := by
  decide

/-- C4 (amended): `formatSensorData` renders exactly the present field
groups of the sample, comma-joined, each with its fixed format precision,
in the source's rendering order. -/
theorem formatSensorData_renders_present_fields (d : XbusParser.SensorData) :
    XbusParser.renderFields d
      = XbusParser.codeRenderOrder.filter fun pr => XbusParser.hasField d pr.1 := by
  simp only [XbusParser.renderFields, XbusParser.codeRenderOrder, XbusParser.hasField,
    filter_cons_seg, List.filter_nil, List.append_nil, List.append_assoc]

/-- C8: `readFP1632` on a 6-byte input returns the big-endian
two's-complement 16-bit integer part (bytes 4–5) shifted left 32 bits,
combined with the big-endian unsigned 32-bit fractional part (bytes 0–3),
as a 48-bit signed value in 64-bit integer arithmetic, divided by `2^32`;
and the bytes `{0x64,0xA6,0x8A,0xA8,0x00,0x1F}` decode to
`31.393166223541` within `1e-12`. -/
theorem readFP1632_formula_and_literal :
    (∀ b0 b1 b2 b3 b4 b5 : Nat, b0 < 256 → b1 < 256 → b2 < 256 → b3 < 256 →
      b4 < 256 → b5 < 256 →
      XbusParser.readFP1632 [b0, b1, b2, b3, b4, b5] 0 =
        ((XbusParser.toInt16 (b4 * 256 + b5) * 2 ^ 32
          + (b0 * 2 ^ 24 + b1 * 2 ^ 16 + b2 * 2 ^ 8 + b3 : Int) : Int) : ℚ) / 2 ^ 32) ∧
    |XbusParser.readFP1632 [0x64, 0xA6, 0x8A, 0xA8, 0x00, 0x1F] 0
        - 31393166223541 / 10 ^ 12| ≤ 1 / 10 ^ 12 := by
  constructor
  · intro b0 b1 b2 b3 b4 b5 h0 h1 h2 h3 h4 h5
    simp [XbusParser.readFP1632, XbusParser.readU32, XbusParser.readU16,
      XbusParser.readByte, Nat.mod_eq_of_lt, h0, h1, h2, h3, h4, h5]
  · norm_num [XbusParser.readFP1632, XbusParser.readU32, XbusParser.readU16,
      XbusParser.readByte, XbusParser.toInt16, abs_le]

/-- C9: for each value in the spec's round-trip set, encoding with the
documented inverse `doubleToFP1632` and decoding with `readFP1632`
returns the value within `1e-9`. -/
theorem fp1632_roundtrip :
    |XbusParser.readFP1632 (XbusParser.doubleToFP1632 0) 0 - 0| ≤ 1 / 10 ^ 9 ∧
    |XbusParser.readFP1632 (XbusParser.doubleToFP1632 1) 0 - 1| ≤ 1 / 10 ^ 9 ∧
    |XbusParser.readFP1632 (XbusParser.doubleToFP1632 (-1)) 0 - (-1)| ≤ 1 / 10 ^ 9 ∧
    |XbusParser.readFP1632 (XbusParser.doubleToFP1632 (1 / 10)) 0 - 1 / 10| ≤ 1 / 10 ^ 9 ∧
    |XbusParser.readFP1632 (XbusParser.doubleToFP1632 (2 / 10)) 0 - 2 / 10| ≤ 1 / 10 ^ 9 ∧
    |XbusParser.readFP1632 (XbusParser.doubleToFP1632 (3 / 10)) 0 - 3 / 10| ≤ 1 / 10 ^ 9 ∧
    |XbusParser.readFP1632 (XbusParser.doubleToFP1632 (31393166223541 / 10 ^ 12)) 0
        - 31393166223541 / 10 ^ 12| ≤ 1 / 10 ^ 9 ∧
    |XbusParser.readFP1632 (XbusParser.doubleToFP1632 (121229738174938 / 10 ^ 12)) 0
        - 121229738174938 / 10 ^ 12| ≤ 1 / 10 ^ 9 ∧
    |XbusParser.readFP1632 (XbusParser.doubleToFP1632 (-21542994305 / 10 ^ 12)) 0
        - (-21542994305 / 10 ^ 12)| ≤ 1 / 10 ^ 9 := by
  refine ⟨?_, ?_, ?_, ?_, ?_, ?_, ?_, ?_, ?_⟩
  · have h : XbusParser.doubleToFP1632 0 = [0, 0, 0, 0, 0, 0] := by
      norm_num [XbusParser.doubleToFP1632, XbusParser.roundHalfAway]
    rw [h]
    norm_num [XbusParser.readFP1632, XbusParser.readU32, XbusParser.readU16,
      XbusParser.readByte, XbusParser.toInt16, abs_le]
  · have h : XbusParser.doubleToFP1632 1 = [0, 0, 0, 0, 0, 1] := by
      norm_num [XbusParser.doubleToFP1632, XbusParser.roundHalfAway]
    rw [h]
    norm_num [XbusParser.readFP1632, XbusParser.readU32, XbusParser.readU16,
      XbusParser.readByte, XbusParser.toInt16, abs_le]
  · have h : XbusParser.doubleToFP1632 (-1) = [0, 0, 0, 0, 255, 255] := by
      norm_num [XbusParser.doubleToFP1632, XbusParser.roundHalfAway]
      decide
    rw [h]
    norm_num [XbusParser.readFP1632, XbusParser.readU32, XbusParser.readU16,
      XbusParser.readByte, XbusParser.toInt16, abs_le]
  · have h : XbusParser.doubleToFP1632 (1 / 10) = [25, 153, 153, 154, 0, 0] := by
      norm_num [XbusParser.doubleToFP1632, XbusParser.roundHalfAway]
      decide
    rw [h]
    norm_num [XbusParser.readFP1632, XbusParser.readU32, XbusParser.readU16,
      XbusParser.readByte, XbusParser.toInt16, abs_le]
  · have h : XbusParser.doubleToFP1632 (2 / 10) = [51, 51, 51, 51, 0, 0] := by
      norm_num [XbusParser.doubleToFP1632, XbusParser.roundHalfAway]
      decide
    rw [h]
    norm_num [XbusParser.readFP1632, XbusParser.readU32, XbusParser.readU16,
      XbusParser.readByte, XbusParser.toInt16, abs_le]
  · have h : XbusParser.doubleToFP1632 (3 / 10) = [76, 204, 204, 205, 0, 0] := by
      norm_num [XbusParser.doubleToFP1632, XbusParser.roundHalfAway]
      decide
    rw [h]
    norm_num [XbusParser.readFP1632, XbusParser.readU32, XbusParser.readU16,
      XbusParser.readByte, XbusParser.toInt16, abs_le]
  · have h : XbusParser.doubleToFP1632 (31393166223541 / 10 ^ 12)
        = [100, 166, 138, 168, 0, 31] := by
      norm_num [XbusParser.doubleToFP1632, XbusParser.roundHalfAway]
      decide
    rw [h]
    norm_num [XbusParser.readFP1632, XbusParser.readU32, XbusParser.readU16,
      XbusParser.readByte, XbusParser.toInt16, abs_le]
  · have h : XbusParser.doubleToFP1632 (121229738174938 / 10 ^ 12)
        = [58, 208, 30, 252, 0, 121] := by
      norm_num [XbusParser.doubleToFP1632, XbusParser.roundHalfAway]
      decide
    rw [h]
    norm_num [XbusParser.readFP1632, XbusParser.readU32, XbusParser.readU16,
      XbusParser.readByte, XbusParser.toInt16, abs_le]
  · have h : XbusParser.doubleToFP1632 (-21542994305 / 10 ^ 12)
        = [250, 124, 40, 136, 255, 255] := by
      norm_num [XbusParser.doubleToFP1632, XbusParser.roundHalfAway]
      decide
    rw [h]
    norm_num [XbusParser.readFP1632, XbusParser.readU32, XbusParser.readU16,
      XbusParser.readByte, XbusParser.toInt16, abs_le]

theorem sumFrom_congr (m m' : Xbus.Buf) (s : Nat) :
    ∀ c : Nat, (∀ j, s ≤ j → j < s + c → m j = m' j) →
      Xbus.sumFrom m s c = Xbus.sumFrom m' s c := by
  intro c
  induction c generalizing s with
  | zero => intro _; rfl
  | succ n ih =>
    intro h
    have h0 : m s = m' s := h s le_rfl (by omega)
    have hrest := ih (s + 1) fun j hj1 hj2 => h j (by omega) (by omega)
    simp [Xbus.sumFrom, h0, hrest]

theorem sumFrom_snoc (m : Xbus.Buf) (s : Nat) :
    ∀ c : Nat, Xbus.sumFrom m s (c + 1) = Xbus.sumFrom m s c + m (s + c) % 256 := by
  intro c
  induction c generalizing s with
  | zero => simp [Xbus.sumFrom]
  | succ n ih =>
    have h1 : s + 1 + n = s + (n + 1) := by omega
    calc Xbus.sumFrom m s (n + 2)
        = m s % 256 + Xbus.sumFrom m (s + 1) (n + 1) := rfl
      _ = m s % 256 + (Xbus.sumFrom m (s + 1) n + m (s + 1 + n) % 256) := by rw [ih (s + 1)]
      _ = Xbus.sumFrom m s (n + 1) + m (s + (n + 1)) % 256 := by
          rw [h1]; simp [Xbus.sumFrom, Nat.add_assoc]

theorem checksum_closes (S : Nat) : (S + (256 - S % 256) % 256) % 256 = 0 := by
  omega

theorem buildFrame_recovers (m0 : Xbus.Buf) (bid mid len : Nat) (p : Nat → Nat)
    (hbid : bid < 256) (hmid : mid < 256) (hlen : len < 65536)
    (hp : ∀ i, i < len → p i < 256) :
    Xbus.getBusId (Xbus.buildFrame m0 bid mid len p) = bid ∧
    Xbus.getMessageId (Xbus.buildFrame m0 bid mid len p) = mid ∧
    Xbus.getPayloadLength (Xbus.buildFrame m0 bid mid len p) = len ∧
    (Xbus.buildFrame m0 bid mid len p 3 % 256 = 255 ↔ 255 ≤ len) ∧
    (∀ i, i < len →
      Xbus.buildFrame m0 bid mid len p
        (Xbus.payloadOffset (Xbus.buildFrame m0 bid mid len p) + i) = p i) ∧
    Xbus.verifyChecksum (Xbus.buildFrame m0 bid mid len p) = true := by
  by_cases hsmall : len < 255
  case pos =>
    have hlen256 : len < 256 := by omega
    have hne : len ≠ 255 := by omega
    have hg : ∀ j, Xbus.createMessage m0 bid mid len j =
        if j = 3 then len else if j = 2 then mid else if j = 1 then bid
        else if j = 0 then 250 else m0 j := by
      intro j
      simp only [Xbus.createMessage, Xbus.setPayloadLength, if_pos hsmall,
        Xbus.setMessageId, Xbus.setBusId, Xbus.writeB]
      rw [Nat.mod_eq_of_lt hlen256, Nat.mod_eq_of_lt hmid, Nat.mod_eq_of_lt hbid]
    have hoff : Xbus.payloadOffset (Xbus.createMessage m0 bid mid len) = 4 := by
      simp [Xbus.payloadOffset, hg 3, Nat.mod_eq_of_lt hlen256, hne]
    have hh : ∀ j, Xbus.copyPayload (Xbus.createMessage m0 bid mid len) p len j =
        if 4 ≤ j ∧ j < 4 + len then p (j - 4) % 256
        else if j = 3 then len else if j = 2 then mid else if j = 1 then bid
        else if j = 0 then 250 else m0 j := by
      intro j
      simp only [Xbus.copyPayload, hoff, hg j]
    have hh3 : Xbus.copyPayload (Xbus.createMessage m0 bid mid len) p len 3 = len := by
      rw [hh 3, if_neg (by omega)]
      simp
    have hraw : Xbus.getRawLength (Xbus.copyPayload (Xbus.createMessage m0 bid mid len) p len)
        = len + 5 := by
      simp [Xbus.getRawLength, Xbus.getPayloadLength, hh3, Nat.mod_eq_of_lt hlen256, hne]
    have e1 : len + 5 - 1 = len + 4 := by omega
    have e2 : len + 5 - 2 = len + 3 := by omega
    have hf : ∀ j, Xbus.buildFrame m0 bid mid len p j =
        if j = len + 4 then
          (256 - Xbus.sumFrom (Xbus.copyPayload (Xbus.createMessage m0 bid mid len) p len)
            1 (len + 3) % 256) % 256
        else Xbus.copyPayload (Xbus.createMessage m0 bid mid len) p len j := by
      intro j
      simp only [Xbus.buildFrame, Xbus.insertChecksum, hraw, e1, e2, Xbus.writeB]
    have hf3 : Xbus.buildFrame m0 bid mid len p 3 = len := by
      rw [hf 3, if_neg (by omega), hh3]
    refine ⟨?_, ?_, ?_, ?_, ?_, ?_⟩
    · rw [Xbus.getBusId, hf 1, if_neg (by omega), hh 1, if_neg (by omega),
        if_neg (by omega), if_neg (by omega), if_pos rfl, Nat.mod_eq_of_lt hbid]
    · rw [Xbus.getMessageId, hf 2, if_neg (by omega), hh 2, if_neg (by omega),
        if_neg (by omega), if_pos rfl, Nat.mod_eq_of_lt hmid]
    · rw [Xbus.getPayloadLength]
      rw [hf3]
      simp [Nat.mod_eq_of_lt hlen256, hne]
    · rw [hf3, Nat.mod_eq_of_lt hlen256]
      omega
    · intro i hi
      have hoff' : Xbus.payloadOffset (Xbus.buildFrame m0 bid mid len p) = 4 := by
        rw [Xbus.payloadOffset, hf3, Nat.mod_eq_of_lt hlen256, if_neg hne]
      rw [hoff', hf (4 + i), if_neg (by omega), hh (4 + i),
        if_pos ⟨by omega, by omega⟩]
      simp [Nat.mod_eq_of_lt (hp i hi)]
    · have hraw' : Xbus.getRawLength (Xbus.buildFrame m0 bid mid len p) = len + 5 := by
        simp [Xbus.getRawLength, Xbus.getPayloadLength, hf3, Nat.mod_eq_of_lt hlen256, hne]
      rw [Xbus.verifyChecksum, hraw']
      have hsplit : len + 5 - 1 = (len + 3) + 1 := by omega
      rw [hsplit, sumFrom_snoc]
      have hagree : Xbus.sumFrom (Xbus.buildFrame m0 bid mid len p) 1 (len + 3)
          = Xbus.sumFrom (Xbus.copyPayload (Xbus.createMessage m0 bid mid len) p len)
              1 (len + 3) := by
        apply sumFrom_congr
        intro j hj1 hj2
        rw [hf j, if_neg (by omega)]
      have hlast : Xbus.buildFrame m0 bid mid len p (1 + (len + 3))
          = (256 - Xbus.sumFrom (Xbus.copyPayload (Xbus.createMessage m0 bid mid len) p len)
              1 (len + 3) % 256) % 256 := by
        rw [hf (1 + (len + 3)), if_pos (by omega)]
      rw [hagree, hlast, Nat.mod_mod_of_dvd _ (dvd_refl 256)]
      simp only [beq_iff_eq]
      exact checksum_closes _
  case neg =>
    have hge : 255 ≤ len := by omega
    have hdiv : len >>> 8 = len / 256 := by
      simp [Nat.shiftRight_eq_div_pow]
    have hdivlt : len / 256 < 256 := by omega
    have hg : ∀ j, Xbus.createMessage m0 bid mid len j =
        if j = 5 then len % 256 else if j = 4 then len / 256 else if j = 3 then 255
        else if j = 2 then mid else if j = 1 then bid
        else if j = 0 then 250 else m0 j := by
      intro j
      simp only [Xbus.createMessage, Xbus.setPayloadLength, if_neg hsmall,
        Xbus.setMessageId, Xbus.setBusId, Xbus.writeB, hdiv]
      rw [Nat.mod_eq_of_lt hdivlt, Nat.mod_eq_of_lt hmid, Nat.mod_eq_of_lt hbid]
    have hoff : Xbus.payloadOffset (Xbus.createMessage m0 bid mid len) = 6 := by
      simp [Xbus.payloadOffset, hg 3]
    have hh : ∀ j, Xbus.copyPayload (Xbus.createMessage m0 bid mid len) p len j =
        if 6 ≤ j ∧ j < 6 + len then p (j - 6) % 256
        else if j = 5 then len % 256 else if j = 4 then len / 256 else if j = 3 then 255
        else if j = 2 then mid else if j = 1 then bid
        else if j = 0 then 250 else m0 j := by
      intro j
      simp only [Xbus.copyPayload, hoff, hg j]
    have hh3 : Xbus.copyPayload (Xbus.createMessage m0 bid mid len) p len 3 = 255 := by
      rw [hh 3, if_neg (by omega), if_neg (by omega), if_neg (by omega), if_pos rfl]
    have hh4 : Xbus.copyPayload (Xbus.createMessage m0 bid mid len) p len 4 = len / 256 := by
      rw [hh 4, if_neg (by omega), if_neg (by omega), if_pos rfl]
    have hh5 : Xbus.copyPayload (Xbus.createMessage m0 bid mid len) p len 5 = len % 256 := by
      rw [hh 5, if_neg (by omega), if_pos rfl]
    have hplen : Xbus.getPayloadLength
        (Xbus.copyPayload (Xbus.createMessage m0 bid mid len) p len) = len := by
      rw [Xbus.getPayloadLength, hh3]
      simp only [hh4, hh5]
      rw [if_neg (by norm_num)]
      omega
    have hraw : Xbus.getRawLength (Xbus.copyPayload (Xbus.createMessage m0 bid mid len) p len)
        = len + 7 := by
      rw [Xbus.getRawLength, hplen, hh3]
      norm_num
    have e1 : len + 7 - 1 = len + 6 := by omega
    have e2 : len + 7 - 2 = len + 5 := by omega
    have hf : ∀ j, Xbus.buildFrame m0 bid mid len p j =
        if j = len + 6 then
          (256 - Xbus.sumFrom (Xbus.copyPayload (Xbus.createMessage m0 bid mid len) p len)
            1 (len + 5) % 256) % 256
        else Xbus.copyPayload (Xbus.createMessage m0 bid mid len) p len j := by
      intro j
      simp only [Xbus.buildFrame, Xbus.insertChecksum, hraw, e1, e2, Xbus.writeB]
    have hf3 : Xbus.buildFrame m0 bid mid len p 3 = 255 := by
      rw [hf 3, if_neg (by omega), hh3]
    have hf4 : Xbus.buildFrame m0 bid mid len p 4 = len / 256 := by
      rw [hf 4, if_neg (by omega), hh4]
    have hf5 : Xbus.buildFrame m0 bid mid len p 5 = len % 256 := by
      rw [hf 5, if_neg (by omega), hh5]
    refine ⟨?_, ?_, ?_, ?_, ?_, ?_⟩
    · rw [Xbus.getBusId, hf 1, if_neg (by omega), hh 1, if_neg (by omega),
        if_neg (by omega), if_neg (by omega), if_neg (by omega), if_neg (by omega),
        if_pos rfl, Nat.mod_eq_of_lt hbid]
    · rw [Xbus.getMessageId, hf 2, if_neg (by omega), hh 2, if_neg (by omega),
        if_neg (by omega), if_neg (by omega), if_neg (by omega), if_pos rfl,
        Nat.mod_eq_of_lt hmid]
    · rw [Xbus.getPayloadLength, hf3]
      simp only [hf4, hf5]
      rw [if_neg (by norm_num)]
      omega
    · rw [hf3]
      norm_num
      omega
    · intro i hi
      have hoff' : Xbus.payloadOffset (Xbus.buildFrame m0 bid mid len p) = 6 := by
        rw [Xbus.payloadOffset, hf3]
        norm_num
      rw [hoff', hf (6 + i), if_neg (by omega), hh (6 + i),
        if_pos ⟨by omega, by omega⟩]
      simp [Nat.mod_eq_of_lt (hp i hi)]
    · have hraw' : Xbus.getRawLength (Xbus.buildFrame m0 bid mid len p) = len + 7 := by
        rw [Xbus.getRawLength, Xbus.getPayloadLength, hf3]
        simp only [hf4, hf5]
        rw [if_neg (by norm_num), if_pos (by norm_num)]
        omega
      rw [Xbus.verifyChecksum, hraw']
      have hsplit : len + 7 - 1 = (len + 5) + 1 := by omega
      rw [hsplit, sumFrom_snoc]
      have hagree : Xbus.sumFrom (Xbus.buildFrame m0 bid mid len p) 1 (len + 5)
          = Xbus.sumFrom (Xbus.copyPayload (Xbus.createMessage m0 bid mid len) p len)
              1 (len + 5) := by
        apply sumFrom_congr
        intro j hj1 hj2
        rw [hf j, if_neg (by omega)]
      have hlast : Xbus.buildFrame m0 bid mid len p (1 + (len + 5))
          = (256 - Xbus.sumFrom (Xbus.copyPayload (Xbus.createMessage m0 bid mid len) p len)
              1 (len + 5) % 256) % 256 := by
        rw [hf (1 + (len + 5)), if_pos (by omega)]
      rw [hagree, hlast, Nat.mod_mod_of_dvd _ (dvd_refl 256)]
      simp only [beq_iff_eq]
      exact checksum_closes _

/-- C1: for every busId, messageId, and payload whose length is one of
{0, 1, 254, 255, 256, 65535}, building a frame with `createMessage`,
copying the payload into the payload region, and calling `insertChecksum`
yields a frame from which `getBusId`, `getMessageId`, `getPayloadLength`
and the payload region recover the identical busId, messageId and payload
bytes; the extended (`0xFF`-escape) length form is selected iff the length
is ≥ 255; and `verifyChecksum` returns true on the built frame. -/
theorem envelope_roundtrip (m0 : Xbus.Buf) (bid mid len : Nat) (p : Nat → Nat)
    (hbid : bid < 256) (hmid : mid < 256)
    (hlen : len ∈ [0, 1, 254, 255, 256, 65535])
    (hp : ∀ i, i < len → p i < 256) :
    Xbus.getBusId (Xbus.buildFrame m0 bid mid len p) = bid ∧
    Xbus.getMessageId (Xbus.buildFrame m0 bid mid len p) = mid ∧
    Xbus.getPayloadLength (Xbus.buildFrame m0 bid mid len p) = len ∧
    (Xbus.buildFrame m0 bid mid len p 3 % 256 = 255 ↔ 255 ≤ len) ∧
    (∀ i, i < len →
      Xbus.buildFrame m0 bid mid len p
        (Xbus.payloadOffset (Xbus.buildFrame m0 bid mid len p) + i) = p i) ∧
    Xbus.verifyChecksum (Xbus.buildFrame m0 bid mid len p) = true := by
  have hlen' : len < 65536 := by
    simp at hlen
    omega
  exact buildFrame_recovers m0 bid mid len p hbid hmid hlen' hp

/-- Witness for the envelope round trip at busId 1, messageId `0x36`,
payload length 256 (extended length form), payload byte `i % 256`. -/
theorem envelope_roundtrip_witness :
    Xbus.getBusId (Xbus.buildFrame (fun _ => 0) 1 54 256 (fun i => i % 256)) = 1 ∧
    Xbus.getMessageId (Xbus.buildFrame (fun _ => 0) 1 54 256 (fun i => i % 256)) = 54 ∧
    Xbus.getPayloadLength (Xbus.buildFrame (fun _ => 0) 1 54 256 (fun i => i % 256)) = 256 ∧
    (Xbus.buildFrame (fun _ => 0) 1 54 256 (fun i => i % 256) 3 % 256 = 255 ↔ 255 ≤ 256) ∧
    (∀ i, i < 256 →
      Xbus.buildFrame (fun _ => 0) 1 54 256 (fun i => i % 256)
        (Xbus.payloadOffset (Xbus.buildFrame (fun _ => 0) 1 54 256 (fun i => i % 256)) + i)
        = i % 256) ∧
    Xbus.verifyChecksum (Xbus.buildFrame (fun _ => 0) 1 54 256 (fun i => i % 256)) = true :=
  envelope_roundtrip (fun _ => 0) 1 54 256 (fun i => i % 256) (by norm_num) (by norm_num)
    (by decide) (fun i _ => Nat.mod_lt i (by norm_num))

theorem getPayloadLength_lt (m : Xbus.Buf) : Xbus.getPayloadLength m < 65536 := by
  have h3 := Nat.mod_lt (m 3) (show 0 < 256 by norm_num)
  have h4 := Nat.mod_lt (m 4) (show 0 < 256 by norm_num)
  have h5 := Nat.mod_lt (m 5) (show 0 < 256 by norm_num)
  unfold Xbus.getPayloadLength
  split <;> omega

theorem sumFrom_bufOfList_cons (x : Nat) (l : List Nat) (s : Nat) :
    ∀ c, Xbus.sumFrom (Xbus.bufOfList (x :: l)) (s + 1) c
      = Xbus.sumFrom (Xbus.bufOfList l) s c := by
  intro c
  induction c generalizing s with
  | zero => rfl
  | succ n ih =>
    simp only [Xbus.sumFrom, Xbus.bufOfList, List.getD_cons_succ]
    rw [ih (s + 1)]

theorem sumFrom_bufOfList (l : List Nat) (hl : ∀ b ∈ l, b < 256) :
    Xbus.sumFrom (Xbus.bufOfList l) 0 l.length = l.sum := by
  induction l with
  | nil => rfl
  | cons b t ih =>
    have hb : b % 256 = b := Nat.mod_eq_of_lt (hl b (by simp))
    have hzero : (0 : Nat) + 1 = 0 + 1 := rfl
    calc Xbus.sumFrom (Xbus.bufOfList (b :: t)) 0 (t.length + 1)
        = b % 256 + Xbus.sumFrom (Xbus.bufOfList (b :: t)) 1 t.length := rfl
      _ = b + Xbus.sumFrom (Xbus.bufOfList t) 0 t.length := by
          rw [hb, sumFrom_bufOfList_cons b t 0 t.length]
      _ = b + t.sum := by rw [ih fun x hx => hl x (by simp [hx])]
      _ = (b :: t).sum := by simp

theorem rawBody_lt (m : Xbus.Buf) : ∀ b ∈ Xbus.rawBody m, b < 256 := by
  intro b hb
  unfold Xbus.rawBody Xbus.rawLenField at hb
  simp only [List.mem_cons, List.mem_append, List.mem_map, List.mem_range] at hb
  rcases hb with (rfl | rfl | hb) | ⟨i, _, rfl⟩
  · norm_num
  · exact Nat.mod_lt _ (by norm_num)
  · split at hb
    · rcases List.mem_singleton.mp hb with rfl
      exact Nat.mod_lt _ (by norm_num)
    · simp only [List.mem_cons, List.not_mem_nil, or_false] at hb
      rcases hb with rfl | rfl | rfl
      · norm_num
      · exact Nat.mod_lt _ (by norm_num)
      · exact Nat.mod_lt _ (by norm_num)
  · exact Nat.mod_lt _ (by norm_num)

theorem createRawMessage_lt (m : Xbus.Buf) : ∀ b ∈ Xbus.createRawMessage m, b < 256 := by
  intro b hb
  unfold Xbus.createRawMessage at hb
  simp only [List.mem_cons, List.mem_append, List.mem_singleton,
    List.not_mem_nil, or_false] at hb
  rcases hb with (rfl | hb) | rfl
  · norm_num
  · exact rawBody_lt m b hb
  · exact Nat.mod_lt _ (by norm_num)

theorem rawBody_small (m : Xbus.Buf) (h : Xbus.getPayloadLength m < 255) :
    Xbus.rawBody m = 255 :: Xbus.getMessageId m :: (Xbus.getPayloadLength m % 256)
      :: (List.range (Xbus.getPayloadLength m)).map
          (fun i => m (Xbus.payloadOffset m + i) % 256) := by
  unfold Xbus.rawBody Xbus.rawLenField
  simp [h]

theorem rawBody_big (m : Xbus.Buf) (h : ¬ Xbus.getPayloadLength m < 255) :
    Xbus.rawBody m = 255 :: Xbus.getMessageId m :: 255
      :: ((Xbus.getPayloadLength m >>> 8) % 256) :: (Xbus.getPayloadLength m % 256)
      :: (List.range (Xbus.getPayloadLength m)).map
          (fun i => m (Xbus.payloadOffset m + i) % 256) := by
  unfold Xbus.rawBody Xbus.rawLenField
  simp [h]

/-- C5: `createRawMessage` writes an output frame whose bus id byte is the
fixed `XBUS_MASTERDEVICE` identifier `0xFF` regardless of the bus id the
input message carries, whose message id and payload bytes equal the
input's, and whose final checksum byte makes the output frame pass
`verifyChecksum`. -/
theorem createRawMessage_forces_master (m : Xbus.Buf) (hm : ∀ i, m i < 256) :
    (Xbus.createRawMessage m).getD 0 0 = 250 ∧
    (Xbus.createRawMessage m).getD 1 0 = 255 ∧
    (Xbus.createRawMessage m).getD 2 0 = Xbus.getMessageId m ∧
    Xbus.getPayloadLength (Xbus.bufOfList (Xbus.createRawMessage m))
      = Xbus.getPayloadLength m ∧
    (∀ i, i < Xbus.getPayloadLength m →
      (Xbus.createRawMessage m).getD
        (Xbus.payloadOffset (Xbus.bufOfList (Xbus.createRawMessage m)) + i) 0
        = m (Xbus.payloadOffset m + i)) ∧
    Xbus.verifyChecksum (Xbus.bufOfList (Xbus.createRawMessage m)) = true := by
  have hlt : Xbus.getPayloadLength m < 65536 := getPayloadLength_lt m
  by_cases hsmall : Xbus.getPayloadLength m < 255
  case pos =>
    have hmod : Xbus.getPayloadLength m % 256 = Xbus.getPayloadLength m :=
      Nat.mod_eq_of_lt (by omega)
    have hL : Xbus.createRawMessage m
        = 250 :: 255 :: Xbus.getMessageId m :: Xbus.getPayloadLength m
          :: ((List.range (Xbus.getPayloadLength m)).map
                (fun i => m (Xbus.payloadOffset m + i) % 256)
              ++ [(256 - (Xbus.rawBody m).sum % 256) % 256]) := by
      conv_lhs => rw [Xbus.createRawMessage]
      rw [rawBody_small m hsmall, hmod]
      simp
    have hgd3 : Xbus.bufOfList (Xbus.createRawMessage m) 3 = Xbus.getPayloadLength m := by
      show (Xbus.createRawMessage m).getD 3 0 = Xbus.getPayloadLength m
      rw [hL]; rfl
    have hplen : Xbus.getPayloadLength (Xbus.bufOfList (Xbus.createRawMessage m))
        = Xbus.getPayloadLength m := by
      rw [Xbus.getPayloadLength, hgd3, hmod, if_pos (by omega)]
    have hoff : Xbus.payloadOffset (Xbus.bufOfList (Xbus.createRawMessage m)) = 4 := by
      rw [Xbus.payloadOffset, hgd3, hmod, if_neg (by omega)]
    refine ⟨by rw [hL]; rfl, by rw [hL]; rfl, by rw [hL]; rfl, hplen, ?_, ?_⟩
    · intro i hi
      rw [hoff, hL, show 4 + i = i + 4 from by omega]
      show ((List.range (Xbus.getPayloadLength m)).map
          (fun j => m (Xbus.payloadOffset m + j) % 256)
          ++ [(256 - (Xbus.rawBody m).sum % 256) % 256]).getD i 0 = _
      rw [List.getD_append _ _ _ _ (by simpa using hi),
        List.getD_eq_getElem _ _ (by simpa using hi)]
      simp [Nat.mod_eq_of_lt (hm _)]
    · have hraw : Xbus.getRawLength (Xbus.bufOfList (Xbus.createRawMessage m))
          = Xbus.getPayloadLength m + 5 := by
        rw [Xbus.getRawLength, hplen, hgd3, hmod, if_neg (by omega)]
      rw [Xbus.verifyChecksum, hraw]
      have hlenrest : (Xbus.rawBody m
          ++ [(256 - (Xbus.rawBody m).sum % 256) % 256]).length
          = Xbus.getPayloadLength m + 4 := by
        rw [rawBody_small m hsmall]
        simp
      have hstep : Xbus.getPayloadLength m + 5 - 1
          = (Xbus.rawBody m ++ [(256 - (Xbus.rawBody m).sum % 256) % 256]).length := by
        omega
      rw [hstep]
      show (Xbus.sumFrom (Xbus.bufOfList (250 :: (Xbus.rawBody m
        ++ [(256 - (Xbus.rawBody m).sum % 256) % 256]))) (0 + 1) _ % 256 == 0) = true
      rw [sumFrom_bufOfList_cons, sumFrom_bufOfList]
      · rw [List.sum_append]
        simp only [List.sum_cons, List.sum_nil, add_zero, beq_iff_eq]
        exact checksum_closes _
      · intro b hb
        simp only [List.mem_append, List.mem_singleton] at hb
        rcases hb with hb | rfl
        · exact rawBody_lt m b hb
        · exact Nat.mod_lt _ (by norm_num)
  case neg =>
    have hdiv : Xbus.getPayloadLength m >>> 8 = Xbus.getPayloadLength m / 256 := by
      simp [Nat.shiftRight_eq_div_pow]
    have hdivlt : Xbus.getPayloadLength m / 256 < 256 := by omega
    have hL : Xbus.createRawMessage m
        = 250 :: 255 :: Xbus.getMessageId m :: 255 :: (Xbus.getPayloadLength m / 256)
          :: (Xbus.getPayloadLength m % 256)
          :: ((List.range (Xbus.getPayloadLength m)).map
                (fun i => m (Xbus.payloadOffset m + i) % 256)
              ++ [(256 - (Xbus.rawBody m).sum % 256) % 256]) := by
      conv_lhs => rw [Xbus.createRawMessage]
      rw [rawBody_big m hsmall, hdiv, Nat.mod_eq_of_lt hdivlt]
      simp
    have hgd3 : Xbus.bufOfList (Xbus.createRawMessage m) 3 = 255 := by
      show (Xbus.createRawMessage m).getD 3 0 = 255
      rw [hL]; rfl
    have hgd4 : Xbus.bufOfList (Xbus.createRawMessage m) 4
        = Xbus.getPayloadLength m / 256 := by
      show (Xbus.createRawMessage m).getD 4 0 = Xbus.getPayloadLength m / 256
      rw [hL]; rfl
    have hgd5 : Xbus.bufOfList (Xbus.createRawMessage m) 5
        = Xbus.getPayloadLength m % 256 := by
      show (Xbus.createRawMessage m).getD 5 0 = Xbus.getPayloadLength m % 256
      rw [hL]; rfl
    have hplen : Xbus.getPayloadLength (Xbus.bufOfList (Xbus.createRawMessage m))
        = Xbus.getPayloadLength m := by
      rw [Xbus.getPayloadLength, hgd3, hgd4, hgd5, if_neg (by norm_num),
        Nat.mod_eq_of_lt hdivlt, Nat.mod_mod_of_dvd _ (dvd_refl 256)]
      omega
    have hoff : Xbus.payloadOffset (Xbus.bufOfList (Xbus.createRawMessage m)) = 6 := by
      rw [Xbus.payloadOffset, hgd3, if_pos (by norm_num)]
    refine ⟨by rw [hL]; rfl, by rw [hL]; rfl, by rw [hL]; rfl, hplen, ?_, ?_⟩
    · intro i hi
      rw [hoff, hL, show 6 + i = i + 6 from by omega]
      show ((List.range (Xbus.getPayloadLength m)).map
          (fun j => m (Xbus.payloadOffset m + j) % 256)
          ++ [(256 - (Xbus.rawBody m).sum % 256) % 256]).getD i 0 = _
      rw [List.getD_append _ _ _ _ (by simpa using hi),
        List.getD_eq_getElem _ _ (by simpa using hi)]
      simp [Nat.mod_eq_of_lt (hm _)]
    · have hraw : Xbus.getRawLength (Xbus.bufOfList (Xbus.createRawMessage m))
          = Xbus.getPayloadLength m + 7 := by
        rw [Xbus.getRawLength, hplen, hgd3, if_pos (by norm_num)]
      rw [Xbus.verifyChecksum, hraw]
      have hlenrest : (Xbus.rawBody m
          ++ [(256 - (Xbus.rawBody m).sum % 256) % 256]).length
          = Xbus.getPayloadLength m + 6 := by
        rw [rawBody_big m hsmall]
        simp
      have hstep : Xbus.getPayloadLength m + 7 - 1
          = (Xbus.rawBody m ++ [(256 - (Xbus.rawBody m).sum % 256) % 256]).length := by
        omega
      rw [hstep]
      show (Xbus.sumFrom (Xbus.bufOfList (250 :: (Xbus.rawBody m
        ++ [(256 - (Xbus.rawBody m).sum % 256) % 256]))) (0 + 1) _ % 256 == 0) = true
      rw [sumFrom_bufOfList_cons, sumFrom_bufOfList]
      · rw [List.sum_append]
        simp only [List.sum_cons, List.sum_nil, add_zero, beq_iff_eq]
        exact checksum_closes _
      · intro b hb
        simp only [List.mem_append, List.mem_singleton] at hb
        rcases hb with hb | rfl
        · exact rawBody_lt m b hb
        · exact Nat.mod_lt _ (by norm_num)

/-- Witness for the outbound asymmetry at the constant input buffer whose
every byte is 3 (payload length 3, message id 3, bus id 3 — the output bus
id is still `0xFF`). -/
theorem createRawMessage_forces_master_witness :
    (Xbus.createRawMessage (fun _ => 3)).getD 0 0 = 250 ∧
    (Xbus.createRawMessage (fun _ => 3)).getD 1 0 = 255 ∧
    (Xbus.createRawMessage (fun _ => 3)).getD 2 0 = Xbus.getMessageId (fun _ => 3) ∧
    Xbus.getPayloadLength (Xbus.bufOfList (Xbus.createRawMessage (fun _ => 3)))
      = Xbus.getPayloadLength (fun _ => 3) ∧
    (∀ i, i < Xbus.getPayloadLength (fun _ => 3) →
      (Xbus.createRawMessage (fun _ => 3)).getD
        (Xbus.payloadOffset (Xbus.bufOfList (Xbus.createRawMessage (fun _ => 3))) + i) 0
        = (fun _ : Nat => 3) (Xbus.payloadOffset (fun _ => 3) + i)) ∧
    Xbus.verifyChecksum (Xbus.bufOfList (Xbus.createRawMessage (fun _ => 3))) = true :=
  createRawMessage_forces_master (fun _ => 3) (fun _ => by norm_num)

theorem parseRecs_short (rem : List Nat) (d : XbusParser.SensorData)
    (h : rem.length < 3) : XbusParser.parseRecs rem d = d := by
  match rem with
  | [] => rw [XbusParser.parseRecs] <;> simp
  | [a] => rw [XbusParser.parseRecs] <;> simp
  | [a, b] => rw [XbusParser.parseRecs] <;> simp
  | a :: b :: c :: r => simp at h; omega

theorem parseRecs_cons (t1 t2 sz : Nat) (rest : List Nat) (d : XbusParser.SensorData) :
    XbusParser.parseRecs (t1 :: t2 :: sz :: rest) d =
      if rest.length < sz % 256 then d
      else XbusParser.parseRecs (rest.drop (sz % 256))
        (XbusParser.applyRecord ((t1 % 256) * 256 + t2 % 256) (sz % 256)
          (rest.take (sz % 256)) d) := by
  rw [XbusParser.parseRecs]

theorem tagsOf_cons (t1 t2 sz : Nat) (rest : List Nat) :
    XbusParser.tagsOf (t1 :: t2 :: sz :: rest) =
      if rest.length < sz % 256 then []
      else ((t1 % 256) * 256 + t2 % 256) :: XbusParser.tagsOf (rest.drop (sz % 256)) := by
  rw [XbusParser.tagsOf]

theorem parseRecs_truncated (t1 t2 sz : Nat) (rest : List Nat)
    (d : XbusParser.SensorData) (h : rest.length < sz % 256) :
    XbusParser.parseRecs (t1 :: t2 :: sz :: rest) d = d := by
  rw [parseRecs_cons, if_pos h]

theorem parseRecs_append (g : List Nat) (hg : XbusParser.IsRecs g) :
    ∀ (tail : List Nat) (d : XbusParser.SensorData),
      XbusParser.parseRecs (g ++ tail) d
        = XbusParser.parseRecs tail (XbusParser.parseRecs g d) := by
  induction hg with
  | nil =>
    intro tail d
    rw [parseRecs_short [] d (by simp), List.nil_append]
  | cons t1 t2 sz body rest hb _ ih =>
    intro tail d
    have hb' : ¬ (body ++ rest).length < sz % 256 := by simp [← hb]
    have hb'' : ¬ (body ++ (rest ++ tail)).length < sz % 256 := by simp [← hb]
    calc XbusParser.parseRecs ((t1 :: t2 :: sz :: (body ++ rest)) ++ tail) d
        = XbusParser.parseRecs (t1 :: t2 :: sz :: (body ++ (rest ++ tail))) d := by
          simp [List.append_assoc]
      _ = XbusParser.parseRecs (rest ++ tail)
            (XbusParser.applyRecord ((t1 % 256) * 256 + t2 % 256) (sz % 256) body d) := by
          rw [parseRecs_cons, if_neg hb'', ← hb, List.take_left, List.drop_left]
      _ = XbusParser.parseRecs tail (XbusParser.parseRecs rest
            (XbusParser.applyRecord ((t1 % 256) * 256 + t2 % 256) (sz % 256) body d)) :=
          ih tail _
      _ = XbusParser.parseRecs tail
            (XbusParser.parseRecs (t1 :: t2 :: sz :: (body ++ rest)) d) := by
          rw [parseRecs_cons, if_neg hb', ← hb, List.take_left, List.drop_left]

theorem parseMTData2_accepts (m : Xbus.Buf) (hpre : m 0 % 256 = 250)
    (hmid : m 2 % 256 = 54) (d0 : XbusParser.SensorData) :
    XbusParser.parseMTData2 m d0
      = (true, XbusParser.parseRecs (XbusParser.payloadList m) {}) := by
  rw [XbusParser.parseMTData2, if_neg (by simp [Xbus.checkPreamble, hpre]),
    if_neg (by simp [Xbus.getMessageId, hmid])]

/-- C6: `parseMTData2` returns failure iff the preamble byte is not `0xFA`
or the message id is not the telemetry id `0x36`; on any other frame it
returns success, and a trailing TLV record whose declared size exceeds the
remaining payload bytes stops parsing there, yielding the sample populated
from exactly the complete records before it. -/
theorem parseMTData2_reject_iff_and_truncation :
    (∀ (m : Xbus.Buf) (d0 : XbusParser.SensorData),
      (XbusParser.parseMTData2 m d0).1 = false ↔
        ¬ (m 0 % 256 = 250 ∧ m 2 % 256 = 54)) ∧
    (∀ (m : Xbus.Buf) (d0 : XbusParser.SensorData) (good : List Nat) (t1 t2 sz : Nat)
      (rest : List Nat), m 0 % 256 = 250 → m 2 % 256 = 54 →
      XbusParser.IsRecs good → rest.length < sz % 256 →
      XbusParser.payloadList m = good ++ t1 :: t2 :: sz :: rest →
      XbusParser.parseMTData2 m d0 = (true, XbusParser.parseRecs good {})) := by
  constructor
  · intro m d0
    rw [XbusParser.parseMTData2]
    split_ifs with h1 h2
    · constructor
      · intro _ hc
        exact h2 (show Xbus.getMessageId m = 54 from hc.2)
      · intro _
        rfl
    · constructor
      · intro hfalse
        exact absurd hfalse (by simp)
      · intro hc
        refine absurd ⟨?_, ?_⟩ hc
        · simpa [Xbus.checkPreamble] using h1
        · exact Decidable.not_not.mp h2
    · constructor
      · intro _ hc
        exact h1 (by simp [Xbus.checkPreamble, hc.1])
      · intro _
        rfl
  · intro m d0 good t1 t2 sz rest hpre hmid hg htr hsplit
    rw [parseMTData2_accepts m hpre hmid d0, hsplit, parseRecs_append good hg,
      parseRecs_truncated t1 t2 sz rest _ htr]

/-- Witness for the C6 rejection/truncation behavior: the frame
`FA FF 36 05  10 20 02 0B 0A  ck` followed by nothing has payload
`10 20 02 0B 0A` (one complete packet-counter record); appending a
truncated record `10 60 04 00` (size 4, one value byte) leaves the parse
result the packet-counter-only sample. -/
theorem parseMTData2_reject_iff_and_truncation_witness :
    XbusParser.parseMTData2
        (Xbus.bufOfList [250, 255, 54, 9, 16, 32, 2, 11, 10, 16, 96, 4, 0, 99]) {}
      = (true, XbusParser.parseRecs [16, 32, 2, 11, 10] {}) :=
  (parseMTData2_reject_iff_and_truncation.2
    (Xbus.bufOfList [250, 255, 54, 9, 16, 32, 2, 11, 10, 16, 96, 4, 0, 99]) {}
    [16, 32, 2, 11, 10] 16 96 4 [0] (by decide) (by decide)
    (XbusParser.IsRecs.cons 16 32 2 [11, 10] [] (by decide) XbusParser.IsRecs.nil)
    (by decide) (by decide))

theorem applyRecord_skip (xdi size : Nat) (body : List Nat)
    (d : XbusParser.SensorData) (h : XbusParser.expectedSize xdi ≠ some size) :
    XbusParser.applyRecord xdi size body d = d := by
  by_cases h1 : xdi = 0x1020
  · subst h1
    have hsz : size ≠ 2 := by
      intro he
      exact h (by simp [XbusParser.expectedSize, he])
    simp [XbusParser.applyRecord, hsz]
  by_cases h2 : xdi = 0x1060
  · subst h2
    have hsz : size ≠ 4 := by
      intro he
      exact h (by simp [XbusParser.expectedSize, he])
    simp [XbusParser.applyRecord, hsz]
  by_cases h3 : xdi = 0x2030
  · subst h3
    have hsz : size ≠ 12 := by
      intro he
      exact h (by simp [XbusParser.expectedSize, he])
    simp [XbusParser.applyRecord, hsz]
  by_cases h4 : xdi = 0xE020
  · subst h4
    have hsz : size ≠ 4 := by
      intro he
      exact h (by simp [XbusParser.expectedSize, he])
    simp [XbusParser.applyRecord, hsz]
  by_cases h5 : xdi = 0x5042
  · subst h5
    have hsz : size ≠ 12 := by
      intro he
      exact h (by simp [XbusParser.expectedSize, he])
    simp [XbusParser.applyRecord, hsz]
  by_cases h6 : xdi = 0x5022
  · subst h6
    have hsz : size ≠ 6 := by
      intro he
      exact h (by simp [XbusParser.expectedSize, he])
    simp [XbusParser.applyRecord, hsz]
  by_cases h7 : xdi = 0xD012
  · subst h7
    have hsz : size ≠ 18 := by
      intro he
      exact h (by simp [XbusParser.expectedSize, he])
    simp [XbusParser.applyRecord, hsz]
  by_cases h8 : xdi = 0x1010
  · subst h8
    have hsz : size ≠ 12 := by
      intro he
      exact h (by simp [XbusParser.expectedSize, he])
    simp [XbusParser.applyRecord, hsz]
  by_cases h9 : xdi = 0x2010
  · subst h9
    have hsz : size ≠ 16 := by
      intro he
      exact h (by simp [XbusParser.expectedSize, he])
    simp [XbusParser.applyRecord, hsz]
  by_cases h10 : xdi = 0x3010
  · subst h10
    have hsz : size ≠ 4 := by
      intro he
      exact h (by simp [XbusParser.expectedSize, he])
    simp [XbusParser.applyRecord, hsz]
  by_cases h11 : xdi = 0x4020
  · subst h11
    have hsz : size ≠ 12 := by
      intro he
      exact h (by simp [XbusParser.expectedSize, he])
    simp [XbusParser.applyRecord, hsz]
  by_cases h12 : xdi = 0x8020
  · subst h12
    have hsz : size ≠ 12 := by
      intro he
      exact h (by simp [XbusParser.expectedSize, he])
    simp [XbusParser.applyRecord, hsz]
  by_cases h13 : xdi = 0xC020
  · subst h13
    have hsz : size ≠ 12 := by
      intro he
      exact h (by simp [XbusParser.expectedSize, he])
    simp [XbusParser.applyRecord, hsz]
  by_cases h14 : xdi = 0x0810
  · subst h14
    have hsz : size ≠ 4 := by
      intro he
      exact h (by simp [XbusParser.expectedSize, he])
    simp [XbusParser.applyRecord, hsz]
  simp [XbusParser.applyRecord, h1, h2, h3, h4, h5, h6, h7, h8, h9, h10, h11, h12, h13, h14]

/-- C7: a TLV record whose tag is unknown, or whose declared size differs
from its tag's expected size, is skipped: the dispatch leaves every field
and presence flag unchanged, the loop consumes exactly the declared size,
and such a record between two well-formed record sequences does not
disturb the decoding of either side. -/
theorem tlv_skip_rule (r1 : List Nat) (t1 t2 sz : Nat) (body r2 : List Nat)
    (d : XbusParser.SensorData) (h1 : XbusParser.IsRecs r1)
    (hb : body.length = sz % 256)
    (hskip : XbusParser.expectedSize ((t1 % 256) * 256 + t2 % 256) ≠ some (sz % 256)) :
    (∀ d' : XbusParser.SensorData,
      XbusParser.applyRecord ((t1 % 256) * 256 + t2 % 256) (sz % 256) body d' = d') ∧
    XbusParser.parseRecs (r1 ++ (t1 :: t2 :: sz :: body) ++ r2) d
      = XbusParser.parseRecs (r1 ++ r2) d := by
  refine ⟨fun d' => applyRecord_skip _ _ _ _ hskip, ?_⟩
  have hb' : ¬ (body ++ r2).length < sz % 256 := by simp [← hb]
  calc XbusParser.parseRecs (r1 ++ (t1 :: t2 :: sz :: body) ++ r2) d
      = XbusParser.parseRecs ((t1 :: t2 :: sz :: body) ++ r2)
          (XbusParser.parseRecs r1 d) := by
        rw [List.append_assoc, parseRecs_append r1 h1]
    _ = XbusParser.parseRecs (t1 :: t2 :: sz :: (body ++ r2))
          (XbusParser.parseRecs r1 d) := by simp
    _ = XbusParser.parseRecs r2 (XbusParser.parseRecs r1 d) := by
        rw [parseRecs_cons, if_neg hb', ← hb, List.take_left, List.drop_left,
          applyRecord_skip _ _ _ _ (by rw [hb]; exact hskip)]
    _ = XbusParser.parseRecs (r1 ++ r2) d := (parseRecs_append r1 h1 r2 d).symm

/-- Witness for the TLV skip rule: the unknown record `99 99 02 07 07`
(tag `0x9999`, size 2) placed between the empty record sequence and the
packet-counter record `10 20 02 0B 0A` is skipped without effect. -/
theorem tlv_skip_rule_witness :
    (∀ d' : XbusParser.SensorData,
      XbusParser.applyRecord ((153 % 256) * 256 + 153 % 256) (2 % 256) [7, 7] d' = d') ∧
    XbusParser.parseRecs ([] ++ (153 :: 153 :: 2 :: [7, 7]) ++ [16, 32, 2, 11, 10]) {}
      = XbusParser.parseRecs ([] ++ [16, 32, 2, 11, 10]) {} :=
  tlv_skip_rule [] 153 153 2 [7, 7] [16, 32, 2, 11, 10] {} XbusParser.IsRecs.nil
    (by decide) (by decide)

theorem parseRecs_preserve {α : Type} (T : Nat) (proj : XbusParser.SensorData → α)
    (hp : ∀ xdi size body d, xdi ≠ T →
      proj (XbusParser.applyRecord xdi size body d) = proj d) :
    ∀ (n : Nat) (rem : List Nat), rem.length ≤ n → ∀ d : XbusParser.SensorData,
      T ∉ XbusParser.tagsOf rem → proj (XbusParser.parseRecs rem d) = proj d := by
  intro n
  induction n with
  | zero =>
    intro rem hlen d _
    rw [parseRecs_short rem d (by omega)]
  | succ k ih =>
    intro rem hlen d hT
    match rem with
    | [] => rw [parseRecs_short [] d (by simp)]
    | [a] => rw [parseRecs_short [a] d (by simp)]
    | [a, b] => rw [parseRecs_short [a, b] d (by simp)]
    | t1 :: t2 :: sz :: rest =>
      rw [parseRecs_cons]
      by_cases hc : rest.length < sz % 256
      · rw [if_pos hc]
      · rw [if_neg hc]
        rw [tagsOf_cons, if_neg hc] at hT
        have htag : (t1 % 256) * 256 + t2 % 256 ≠ T := by
          intro he
          exact hT (by rw [he]; exact List.mem_cons_self _ _)
        have hT' : T ∉ XbusParser.tagsOf (rest.drop (sz % 256)) := by
          intro hmem
          exact hT (List.mem_cons_of_mem _ hmem)
        have hlen' : (rest.drop (sz % 256)).length ≤ k := by
          simp only [List.length_cons] at hlen
          simp only [List.length_drop]
          omega
        rw [ih (rest.drop (sz % 256)) hlen' _ hT', hp _ _ _ _ htag]

theorem fieldAbsentUpdPc (T : Nat) (h : T ≠ 0x1020) (v1 : Nat)
    (d : XbusParser.SensorData) :
    XbusParser.fieldAbsent T {d with packetCounter := v1, hasPacketCounter := true}
      = XbusParser.fieldAbsent T d := by
  by_cases e1 : T = 0x1020
  · exact absurd e1 h
  by_cases e2 : T = 0x1060
  · subst e2
    rfl
  by_cases e3 : T = 0x2030
  · subst e3
    rfl
  by_cases e4 : T = 0xE020
  · subst e4
    rfl
  by_cases e5 : T = 0x5042
  · subst e5
    rfl
  by_cases e6 : T = 0x5022
  · subst e6
    rfl
  by_cases e7 : T = 0xD012
  · subst e7
    rfl
  by_cases e8 : T = 0x1010
  · subst e8
    rfl
  by_cases e9 : T = 0x2010
  · subst e9
    rfl
  by_cases e10 : T = 0x3010
  · subst e10
    rfl
  by_cases e11 : T = 0x4020
  · subst e11
    rfl
  by_cases e12 : T = 0x8020
  · subst e12
    rfl
  by_cases e13 : T = 0xC020
  · subst e13
    rfl
  by_cases e14 : T = 0x0810
  · subst e14
    rfl
  unfold XbusParser.fieldAbsent
  simp only [if_neg e1, if_neg e2, if_neg e3, if_neg e4, if_neg e5, if_neg e6, if_neg e7, if_neg e8, if_neg e9, if_neg e10, if_neg e11, if_neg e12, if_neg e13, if_neg e14]

theorem fieldAbsentUpdStf (T : Nat) (h : T ≠ 0x1060) (v1 : Nat)
    (d : XbusParser.SensorData) :
    XbusParser.fieldAbsent T {d with sampleTimeFine := v1, hasSampleTimeFine := true}
      = XbusParser.fieldAbsent T d := by
  by_cases e1 : T = 0x1020
  · subst e1
    rfl
  by_cases e2 : T = 0x1060
  · exact absurd e2 h
  by_cases e3 : T = 0x2030
  · subst e3
    rfl
  by_cases e4 : T = 0xE020
  · subst e4
    rfl
  by_cases e5 : T = 0x5042
  · subst e5
    rfl
  by_cases e6 : T = 0x5022
  · subst e6
    rfl
  by_cases e7 : T = 0xD012
  · subst e7
    rfl
  by_cases e8 : T = 0x1010
  · subst e8
    rfl
  by_cases e9 : T = 0x2010
  · subst e9
    rfl
  by_cases e10 : T = 0x3010
  · subst e10
    rfl
  by_cases e11 : T = 0x4020
  · subst e11
    rfl
  by_cases e12 : T = 0x8020
  · subst e12
    rfl
  by_cases e13 : T = 0xC020
  · subst e13
    rfl
  by_cases e14 : T = 0x0810
  · subst e14
    rfl
  unfold XbusParser.fieldAbsent
  simp only [if_neg e1, if_neg e2, if_neg e3, if_neg e4, if_neg e5, if_neg e6, if_neg e7, if_neg e8, if_neg e9, if_neg e10, if_neg e11, if_neg e12, if_neg e13, if_neg e14]

theorem fieldAbsentUpdEuler (T : Nat) (h : T ≠ 0x2030) (v1 v2 v3 : Nat)
    (d : XbusParser.SensorData) :
    XbusParser.fieldAbsent T {d with roll := v1, pitch := v2, yaw := v3, hasEulerAngles := true}
      = XbusParser.fieldAbsent T d := by
  by_cases e1 : T = 0x1020
  · subst e1
    rfl
  by_cases e2 : T = 0x1060
  · subst e2
    rfl
  by_cases e3 : T = 0x2030
  · exact absurd e3 h
  by_cases e4 : T = 0xE020
  · subst e4
    rfl
  by_cases e5 : T = 0x5042
  · subst e5
    rfl
  by_cases e6 : T = 0x5022
  · subst e6
    rfl
  by_cases e7 : T = 0xD012
  · subst e7
    rfl
  by_cases e8 : T = 0x1010
  · subst e8
    rfl
  by_cases e9 : T = 0x2010
  · subst e9
    rfl
  by_cases e10 : T = 0x3010
  · subst e10
    rfl
  by_cases e11 : T = 0x4020
  · subst e11
    rfl
  by_cases e12 : T = 0x8020
  · subst e12
    rfl
  by_cases e13 : T = 0xC020
  · subst e13
    rfl
  by_cases e14 : T = 0x0810
  · subst e14
    rfl
  unfold XbusParser.fieldAbsent
  simp only [if_neg e1, if_neg e2, if_neg e3, if_neg e4, if_neg e5, if_neg e6, if_neg e7, if_neg e8, if_neg e9, if_neg e10, if_neg e11, if_neg e12, if_neg e13, if_neg e14]

theorem fieldAbsentUpdStatus (T : Nat) (h : T ≠ 0xE020) (v1 : Nat)
    (d : XbusParser.SensorData) :
    XbusParser.fieldAbsent T {d with statusWord := v1, hasStatusWord := true}
      = XbusParser.fieldAbsent T d := by
  by_cases e1 : T = 0x1020
  · subst e1
    rfl
  by_cases e2 : T = 0x1060
  · subst e2
    rfl
  by_cases e3 : T = 0x2030
  · subst e3
    rfl
  by_cases e4 : T = 0xE020
  · exact absurd e4 h
  by_cases e5 : T = 0x5042
  · subst e5
    rfl
  by_cases e6 : T = 0x5022
  · subst e6
    rfl
  by_cases e7 : T = 0xD012
  · subst e7
    rfl
  by_cases e8 : T = 0x1010
  · subst e8
    rfl
  by_cases e9 : T = 0x2010
  · subst e9
    rfl
  by_cases e10 : T = 0x3010
  · subst e10
    rfl
  by_cases e11 : T = 0x4020
  · subst e11
    rfl
  by_cases e12 : T = 0x8020
  · subst e12
    rfl
  by_cases e13 : T = 0xC020
  · subst e13
    rfl
  by_cases e14 : T = 0x0810
  · subst e14
    rfl
  unfold XbusParser.fieldAbsent
  simp only [if_neg e1, if_neg e2, if_neg e3, if_neg e4, if_neg e5, if_neg e6, if_neg e7, if_neg e8, if_neg e9, if_neg e10, if_neg e11, if_neg e12, if_neg e13, if_neg e14]

theorem fieldAbsentUpdLatLon (T : Nat) (h : T ≠ 0x5042) (q1 q2 : ℚ)
    (d : XbusParser.SensorData) :
    XbusParser.fieldAbsent T {d with latitude := q1, longitude := q2, hasLatLon := true}
      = XbusParser.fieldAbsent T d := by
  by_cases e1 : T = 0x1020
  · subst e1
    rfl
  by_cases e2 : T = 0x1060
  · subst e2
    rfl
  by_cases e3 : T = 0x2030
  · subst e3
    rfl
  by_cases e4 : T = 0xE020
  · subst e4
    rfl
  by_cases e5 : T = 0x5042
  · exact absurd e5 h
  by_cases e6 : T = 0x5022
  · subst e6
    rfl
  by_cases e7 : T = 0xD012
  · subst e7
    rfl
  by_cases e8 : T = 0x1010
  · subst e8
    rfl
  by_cases e9 : T = 0x2010
  · subst e9
    rfl
  by_cases e10 : T = 0x3010
  · subst e10
    rfl
  by_cases e11 : T = 0x4020
  · subst e11
    rfl
  by_cases e12 : T = 0x8020
  · subst e12
    rfl
  by_cases e13 : T = 0xC020
  · subst e13
    rfl
  by_cases e14 : T = 0x0810
  · subst e14
    rfl
  unfold XbusParser.fieldAbsent
  simp only [if_neg e1, if_neg e2, if_neg e3, if_neg e4, if_neg e5, if_neg e6, if_neg e7, if_neg e8, if_neg e9, if_neg e10, if_neg e11, if_neg e12, if_neg e13, if_neg e14]

theorem fieldAbsentUpdAlt (T : Nat) (h : T ≠ 0x5022) (q1 : ℚ)
    (d : XbusParser.SensorData) :
    XbusParser.fieldAbsent T {d with altitudeEllipsoid := q1, hasAltitudeEllipsoid := true}
      = XbusParser.fieldAbsent T d := by
  by_cases e1 : T = 0x1020
  · subst e1
    rfl
  by_cases e2 : T = 0x1060
  · subst e2
    rfl
  by_cases e3 : T = 0x2030
  · subst e3
    rfl
  by_cases e4 : T = 0xE020
  · subst e4
    rfl
  by_cases e5 : T = 0x5042
  · subst e5
    rfl
  by_cases e6 : T = 0x5022
  · exact absurd e6 h
  by_cases e7 : T = 0xD012
  · subst e7
    rfl
  by_cases e8 : T = 0x1010
  · subst e8
    rfl
  by_cases e9 : T = 0x2010
  · subst e9
    rfl
  by_cases e10 : T = 0x3010
  · subst e10
    rfl
  by_cases e11 : T = 0x4020
  · subst e11
    rfl
  by_cases e12 : T = 0x8020
  · subst e12
    rfl
  by_cases e13 : T = 0xC020
  · subst e13
    rfl
  by_cases e14 : T = 0x0810
  · subst e14
    rfl
  unfold XbusParser.fieldAbsent
  simp only [if_neg e1, if_neg e2, if_neg e3, if_neg e4, if_neg e5, if_neg e6, if_neg e7, if_neg e8, if_neg e9, if_neg e10, if_neg e11, if_neg e12, if_neg e13, if_neg e14]

theorem fieldAbsentUpdVel (T : Nat) (h : T ≠ 0xD012) (q1 q2 q3 : ℚ)
    (d : XbusParser.SensorData) :
    XbusParser.fieldAbsent T {d with velX := q1, velY := q2, velZ := q3, hasVelocityXYZ := true}
      = XbusParser.fieldAbsent T d := by
  by_cases e1 : T = 0x1020
  · subst e1
    rfl
  by_cases e2 : T = 0x1060
  · subst e2
    rfl
  by_cases e3 : T = 0x2030
  · subst e3
    rfl
  by_cases e4 : T = 0xE020
  · subst e4
    rfl
  by_cases e5 : T = 0x5042
  · subst e5
    rfl
  by_cases e6 : T = 0x5022
  · subst e6
    rfl
  by_cases e7 : T = 0xD012
  · exact absurd e7 h
  by_cases e8 : T = 0x1010
  · subst e8
    rfl
  by_cases e9 : T = 0x2010
  · subst e9
    rfl
  by_cases e10 : T = 0x3010
  · subst e10
    rfl
  by_cases e11 : T = 0x4020
  · subst e11
    rfl
  by_cases e12 : T = 0x8020
  · subst e12
    rfl
  by_cases e13 : T = 0xC020
  · subst e13
    rfl
  by_cases e14 : T = 0x0810
  · subst e14
    rfl
  unfold XbusParser.fieldAbsent
  simp only [if_neg e1, if_neg e2, if_neg e3, if_neg e4, if_neg e5, if_neg e6, if_neg e7, if_neg e8, if_neg e9, if_neg e10, if_neg e11, if_neg e12, if_neg e13, if_neg e14]

theorem fieldAbsentUpdUtc (T : Nat) (h : T ≠ 0x1010) (v1 v2 v3 v4 v5 v6 v7 v8 : Nat)
    (d : XbusParser.SensorData) :
    XbusParser.fieldAbsent T {d with nanoseconds := v1, year := v2, month := v3, day := v4, hour := v5, minute := v6, second := v7, flags := v8, hasUtcTime := true}
      = XbusParser.fieldAbsent T d := by
  by_cases e1 : T = 0x1020
  · subst e1
    rfl
  by_cases e2 : T = 0x1060
  · subst e2
    rfl
  by_cases e3 : T = 0x2030
  · subst e3
    rfl
  by_cases e4 : T = 0xE020
  · subst e4
    rfl
  by_cases e5 : T = 0x5042
  · subst e5
    rfl
  by_cases e6 : T = 0x5022
  · subst e6
    rfl
  by_cases e7 : T = 0xD012
  · subst e7
    rfl
  by_cases e8 : T = 0x1010
  · exact absurd e8 h
  by_cases e9 : T = 0x2010
  · subst e9
    rfl
  by_cases e10 : T = 0x3010
  · subst e10
    rfl
  by_cases e11 : T = 0x4020
  · subst e11
    rfl
  by_cases e12 : T = 0x8020
  · subst e12
    rfl
  by_cases e13 : T = 0xC020
  · subst e13
    rfl
  by_cases e14 : T = 0x0810
  · subst e14
    rfl
  unfold XbusParser.fieldAbsent
  simp only [if_neg e1, if_neg e2, if_neg e3, if_neg e4, if_neg e5, if_neg e6, if_neg e7, if_neg e8, if_neg e9, if_neg e10, if_neg e11, if_neg e12, if_neg e13, if_neg e14]

theorem fieldAbsentUpdQuat (T : Nat) (h : T ≠ 0x2010) (v1 v2 v3 v4 : Nat)
    (d : XbusParser.SensorData) :
    XbusParser.fieldAbsent T {d with q0 := v1, q1 := v2, q2 := v3, q3 := v4, hasQuaternion := true}
      = XbusParser.fieldAbsent T d := by
  by_cases e1 : T = 0x1020
  · subst e1
    rfl
  by_cases e2 : T = 0x1060
  · subst e2
    rfl
  by_cases e3 : T = 0x2030
  · subst e3
    rfl
  by_cases e4 : T = 0xE020
  · subst e4
    rfl
  by_cases e5 : T = 0x5042
  · subst e5
    rfl
  by_cases e6 : T = 0x5022
  · subst e6
    rfl
  by_cases e7 : T = 0xD012
  · subst e7
    rfl
  by_cases e8 : T = 0x1010
  · subst e8
    rfl
  by_cases e9 : T = 0x2010
  · exact absurd e9 h
  by_cases e10 : T = 0x3010
  · subst e10
    rfl
  by_cases e11 : T = 0x4020
  · subst e11
    rfl
  by_cases e12 : T = 0x8020
  · subst e12
    rfl
  by_cases e13 : T = 0xC020
  · subst e13
    rfl
  by_cases e14 : T = 0x0810
  · subst e14
    rfl
  unfold XbusParser.fieldAbsent
  simp only [if_neg e1, if_neg e2, if_neg e3, if_neg e4, if_neg e5, if_neg e6, if_neg e7, if_neg e8, if_neg e9, if_neg e10, if_neg e11, if_neg e12, if_neg e13, if_neg e14]

theorem fieldAbsentUpdBaro (T : Nat) (h : T ≠ 0x3010) (v1 : Nat)
    (d : XbusParser.SensorData) :
    XbusParser.fieldAbsent T {d with pressure := v1, hasBarometricPressure := true}
      = XbusParser.fieldAbsent T d := by
  by_cases e1 : T = 0x1020
  · subst e1
    rfl
  by_cases e2 : T = 0x1060
  · subst e2
    rfl
  by_cases e3 : T = 0x2030
  · subst e3
    rfl
  by_cases e4 : T = 0xE020
  · subst e4
    rfl
  by_cases e5 : T = 0x5042
  · subst e5
    rfl
  by_cases e6 : T = 0x5022
  · subst e6
    rfl
  by_cases e7 : T = 0xD012
  · subst e7
    rfl
  by_cases e8 : T = 0x1010
  · subst e8
    rfl
  by_cases e9 : T = 0x2010
  · subst e9
    rfl
  by_cases e10 : T = 0x3010
  · exact absurd e10 h
  by_cases e11 : T = 0x4020
  · subst e11
    rfl
  by_cases e12 : T = 0x8020
  · subst e12
    rfl
  by_cases e13 : T = 0xC020
  · subst e13
    rfl
  by_cases e14 : T = 0x0810
  · subst e14
    rfl
  unfold XbusParser.fieldAbsent
  simp only [if_neg e1, if_neg e2, if_neg e3, if_neg e4, if_neg e5, if_neg e6, if_neg e7, if_neg e8, if_neg e9, if_neg e10, if_neg e11, if_neg e12, if_neg e13, if_neg e14]

theorem fieldAbsentUpdAcc (T : Nat) (h : T ≠ 0x4020) (v1 v2 v3 : Nat)
    (d : XbusParser.SensorData) :
    XbusParser.fieldAbsent T {d with accX := v1, accY := v2, accZ := v3, hasAcceleration := true}
      = XbusParser.fieldAbsent T d := by
  by_cases e1 : T = 0x1020
  · subst e1
    rfl
  by_cases e2 : T = 0x1060
  · subst e2
    rfl
  by_cases e3 : T = 0x2030
  · subst e3
    rfl
  by_cases e4 : T = 0xE020
  · subst e4
    rfl
  by_cases e5 : T = 0x5042
  · subst e5
    rfl
  by_cases e6 : T = 0x5022
  · subst e6
    rfl
  by_cases e7 : T = 0xD012
  · subst e7
    rfl
  by_cases e8 : T = 0x1010
  · subst e8
    rfl
  by_cases e9 : T = 0x2010
  · subst e9
    rfl
  by_cases e10 : T = 0x3010
  · subst e10
    rfl
  by_cases e11 : T = 0x4020
  · exact absurd e11 h
  by_cases e12 : T = 0x8020
  · subst e12
    rfl
  by_cases e13 : T = 0xC020
  · subst e13
    rfl
  by_cases e14 : T = 0x0810
  · subst e14
    rfl
  unfold XbusParser.fieldAbsent
  simp only [if_neg e1, if_neg e2, if_neg e3, if_neg e4, if_neg e5, if_neg e6, if_neg e7, if_neg e8, if_neg e9, if_neg e10, if_neg e11, if_neg e12, if_neg e13, if_neg e14]

theorem fieldAbsentUpdRot (T : Nat) (h : T ≠ 0x8020) (v1 v2 v3 : Nat)
    (d : XbusParser.SensorData) :
    XbusParser.fieldAbsent T {d with gyrX := v1, gyrY := v2, gyrZ := v3, hasRateOfTurn := true}
      = XbusParser.fieldAbsent T d := by
  by_cases e1 : T = 0x1020
  · subst e1
    rfl
  by_cases e2 : T = 0x1060
  · subst e2
    rfl
  by_cases e3 : T = 0x2030
  · subst e3
    rfl
  by_cases e4 : T = 0xE020
  · subst e4
    rfl
  by_cases e5 : T = 0x5042
  · subst e5
    rfl
  by_cases e6 : T = 0x5022
  · subst e6
    rfl
  by_cases e7 : T = 0xD012
  · subst e7
    rfl
  by_cases e8 : T = 0x1010
  · subst e8
    rfl
  by_cases e9 : T = 0x2010
  · subst e9
    rfl
  by_cases e10 : T = 0x3010
  · subst e10
    rfl
  by_cases e11 : T = 0x4020
  · subst e11
    rfl
  by_cases e12 : T = 0x8020
  · exact absurd e12 h
  by_cases e13 : T = 0xC020
  · subst e13
    rfl
  by_cases e14 : T = 0x0810
  · subst e14
    rfl
  unfold XbusParser.fieldAbsent
  simp only [if_neg e1, if_neg e2, if_neg e3, if_neg e4, if_neg e5, if_neg e6, if_neg e7, if_neg e8, if_neg e9, if_neg e10, if_neg e11, if_neg e12, if_neg e13, if_neg e14]

theorem fieldAbsentUpdMag (T : Nat) (h : T ≠ 0xC020) (v1 v2 v3 : Nat)
    (d : XbusParser.SensorData) :
    XbusParser.fieldAbsent T {d with magX := v1, magY := v2, magZ := v3, hasMagneticField := true}
      = XbusParser.fieldAbsent T d := by
  by_cases e1 : T = 0x1020
  · subst e1
    rfl
  by_cases e2 : T = 0x1060
  · subst e2
    rfl
  by_cases e3 : T = 0x2030
  · subst e3
    rfl
  by_cases e4 : T = 0xE020
  · subst e4
    rfl
  by_cases e5 : T = 0x5042
  · subst e5
    rfl
  by_cases e6 : T = 0x5022
  · subst e6
    rfl
  by_cases e7 : T = 0xD012
  · subst e7
    rfl
  by_cases e8 : T = 0x1010
  · subst e8
    rfl
  by_cases e9 : T = 0x2010
  · subst e9
    rfl
  by_cases e10 : T = 0x3010
  · subst e10
    rfl
  by_cases e11 : T = 0x4020
  · subst e11
    rfl
  by_cases e12 : T = 0x8020
  · subst e12
    rfl
  by_cases e13 : T = 0xC020
  · exact absurd e13 h
  by_cases e14 : T = 0x0810
  · subst e14
    rfl
  unfold XbusParser.fieldAbsent
  simp only [if_neg e1, if_neg e2, if_neg e3, if_neg e4, if_neg e5, if_neg e6, if_neg e7, if_neg e8, if_neg e9, if_neg e10, if_neg e11, if_neg e12, if_neg e13, if_neg e14]

theorem fieldAbsentUpdTemp (T : Nat) (h : T ≠ 0x0810) (v1 : Nat)
    (d : XbusParser.SensorData) :
    XbusParser.fieldAbsent T {d with temperature := v1, hasTemperature := true}
      = XbusParser.fieldAbsent T d := by
  by_cases e1 : T = 0x1020
  · subst e1
    rfl
  by_cases e2 : T = 0x1060
  · subst e2
    rfl
  by_cases e3 : T = 0x2030
  · subst e3
    rfl
  by_cases e4 : T = 0xE020
  · subst e4
    rfl
  by_cases e5 : T = 0x5042
  · subst e5
    rfl
  by_cases e6 : T = 0x5022
  · subst e6
    rfl
  by_cases e7 : T = 0xD012
  · subst e7
    rfl
  by_cases e8 : T = 0x1010
  · subst e8
    rfl
  by_cases e9 : T = 0x2010
  · subst e9
    rfl
  by_cases e10 : T = 0x3010
  · subst e10
    rfl
  by_cases e11 : T = 0x4020
  · subst e11
    rfl
  by_cases e12 : T = 0x8020
  · subst e12
    rfl
  by_cases e13 : T = 0xC020
  · subst e13
    rfl
  by_cases e14 : T = 0x0810
  · exact absurd e14 h
  unfold XbusParser.fieldAbsent
  simp only [if_neg e1, if_neg e2, if_neg e3, if_neg e4, if_neg e5, if_neg e6, if_neg e7, if_neg e8, if_neg e9, if_neg e10, if_neg e11, if_neg e12, if_neg e13, if_neg e14]

theorem fieldAbsent_applyRecord (T xdi size : Nat) (body : List Nat)
    (d : XbusParser.SensorData) (h : xdi ≠ T) :
    XbusParser.fieldAbsent T (XbusParser.applyRecord xdi size body d)
      = XbusParser.fieldAbsent T d := by
  by_cases h1 : xdi = 0x1020
  · subst h1
    by_cases hs : size = 2
    · subst hs
      exact fieldAbsentUpdPc T (Ne.symm h) (XbusParser.readU16 body 0) d
    · rw [applyRecord_skip _ _ _ _ (by simp [XbusParser.expectedSize]; omega)]
  by_cases h2 : xdi = 0x1060
  · subst h2
    by_cases hs : size = 4
    · subst hs
      exact fieldAbsentUpdStf T (Ne.symm h) (XbusParser.readU32 body 0) d
    · rw [applyRecord_skip _ _ _ _ (by simp [XbusParser.expectedSize]; omega)]
  by_cases h3 : xdi = 0x2030
  · subst h3
    by_cases hs : size = 12
    · subst hs
      exact fieldAbsentUpdEuler T (Ne.symm h) (XbusParser.readU32 body 0) (XbusParser.readU32 body 4) (XbusParser.readU32 body 8) d
    · rw [applyRecord_skip _ _ _ _ (by simp [XbusParser.expectedSize]; omega)]
  by_cases h4 : xdi = 0xE020
  · subst h4
    by_cases hs : size = 4
    · subst hs
      exact fieldAbsentUpdStatus T (Ne.symm h) (XbusParser.readU32 body 0) d
    · rw [applyRecord_skip _ _ _ _ (by simp [XbusParser.expectedSize]; omega)]
  by_cases h5 : xdi = 0x5042
  · subst h5
    by_cases hs : size = 12
    · subst hs
      exact fieldAbsentUpdLatLon T (Ne.symm h) (XbusParser.readFP1632 body 0) (XbusParser.readFP1632 body 6) d
    · rw [applyRecord_skip _ _ _ _ (by simp [XbusParser.expectedSize]; omega)]
  by_cases h6 : xdi = 0x5022
  · subst h6
    by_cases hs : size = 6
    · subst hs
      exact fieldAbsentUpdAlt T (Ne.symm h) (XbusParser.readFP1632 body 0) d
    · rw [applyRecord_skip _ _ _ _ (by simp [XbusParser.expectedSize]; omega)]
  by_cases h7 : xdi = 0xD012
  · subst h7
    by_cases hs : size = 18
    · subst hs
      exact fieldAbsentUpdVel T (Ne.symm h) (XbusParser.readFP1632 body 0) (XbusParser.readFP1632 body 6) (XbusParser.readFP1632 body 12) d
    · rw [applyRecord_skip _ _ _ _ (by simp [XbusParser.expectedSize]; omega)]
  by_cases h8 : xdi = 0x1010
  · subst h8
    by_cases hs : size = 12
    · subst hs
      exact fieldAbsentUpdUtc T (Ne.symm h) (XbusParser.readU32 body 0) (XbusParser.readU16 body 4) (XbusParser.readByte body 6) (XbusParser.readByte body 7) (XbusParser.readByte body 8) (XbusParser.readByte body 9) (XbusParser.readByte body 10) (XbusParser.readByte body 11) d
    · rw [applyRecord_skip _ _ _ _ (by simp [XbusParser.expectedSize]; omega)]
  by_cases h9 : xdi = 0x2010
  · subst h9
    by_cases hs : size = 16
    · subst hs
      exact fieldAbsentUpdQuat T (Ne.symm h) (XbusParser.readU32 body 0) (XbusParser.readU32 body 4) (XbusParser.readU32 body 8) (XbusParser.readU32 body 12) d
    · rw [applyRecord_skip _ _ _ _ (by simp [XbusParser.expectedSize]; omega)]
  by_cases h10 : xdi = 0x3010
  · subst h10
    by_cases hs : size = 4
    · subst hs
      exact fieldAbsentUpdBaro T (Ne.symm h) (XbusParser.readU32 body 0) d
    · rw [applyRecord_skip _ _ _ _ (by simp [XbusParser.expectedSize]; omega)]
  by_cases h11 : xdi = 0x4020
  · subst h11
    by_cases hs : size = 12
    · subst hs
      exact fieldAbsentUpdAcc T (Ne.symm h) (XbusParser.readU32 body 0) (XbusParser.readU32 body 4) (XbusParser.readU32 body 8) d
    · rw [applyRecord_skip _ _ _ _ (by simp [XbusParser.expectedSize]; omega)]
  by_cases h12 : xdi = 0x8020
  · subst h12
    by_cases hs : size = 12
    · subst hs
      exact fieldAbsentUpdRot T (Ne.symm h) (XbusParser.readU32 body 0) (XbusParser.readU32 body 4) (XbusParser.readU32 body 8) d
    · rw [applyRecord_skip _ _ _ _ (by simp [XbusParser.expectedSize]; omega)]
  by_cases h13 : xdi = 0xC020
  · subst h13
    by_cases hs : size = 12
    · subst hs
      exact fieldAbsentUpdMag T (Ne.symm h) (XbusParser.readU32 body 0) (XbusParser.readU32 body 4) (XbusParser.readU32 body 8) d
    · rw [applyRecord_skip _ _ _ _ (by simp [XbusParser.expectedSize]; omega)]
  by_cases h14 : xdi = 0x0810
  · subst h14
    by_cases hs : size = 4
    · subst hs
      exact fieldAbsentUpdTemp T (Ne.symm h) (XbusParser.readU32 body 0) d
    · rw [applyRecord_skip _ _ _ _ (by simp [XbusParser.expectedSize]; omega)]
  rw [applyRecord_skip _ _ _ _ (by simp [XbusParser.expectedSize, h1, h2, h3, h4, h5, h6, h7, h8, h9, h10, h11, h12, h13, h14])]

theorem fieldAbsent_default (T : Nat) :
    XbusParser.fieldAbsent T ({} : XbusParser.SensorData) = true := by
  by_cases e1 : T = 0x1020
  · subst e1
    rfl
  by_cases e2 : T = 0x1060
  · subst e2
    rfl
  by_cases e3 : T = 0x2030
  · subst e3
    rfl
  by_cases e4 : T = 0xE020
  · subst e4
    rfl
  by_cases e5 : T = 0x5042
  · subst e5
    rfl
  by_cases e6 : T = 0x5022
  · subst e6
    rfl
  by_cases e7 : T = 0xD012
  · subst e7
    rfl
  by_cases e8 : T = 0x1010
  · subst e8
    rfl
  by_cases e9 : T = 0x2010
  · subst e9
    rfl
  by_cases e10 : T = 0x3010
  · subst e10
    rfl
  by_cases e11 : T = 0x4020
  · subst e11
    rfl
  by_cases e12 : T = 0x8020
  · subst e12
    rfl
  by_cases e13 : T = 0xC020
  · subst e13
    rfl
  by_cases e14 : T = 0x0810
  · subst e14
    rfl
  unfold XbusParser.fieldAbsent
  simp only [if_neg e1, if_neg e2, if_neg e3, if_neg e4, if_neg e5, if_neg e6, if_neg e7, if_neg e8, if_neg e9, if_neg e10, if_neg e11, if_neg e12, if_neg e13, if_neg e14]

/-- C10: for every frame passing the preamble and telemetry-id checks,
`parseMTData2` resets the caller-supplied record at entry, so any two
initial contents give identical results and the result is a function of
the frame bytes alone; every known field group with no matching record
among the dispatched TLV records keeps a false presence flag and its
default value. -/
theorem parseMTData2_output_independence :
    (∀ (m : Xbus.Buf) (d1 d2 : XbusParser.SensorData),
      m 0 % 256 = 250 → m 2 % 256 = 54 →
      XbusParser.parseMTData2 m d1 = XbusParser.parseMTData2 m d2 ∧
      XbusParser.parseMTData2 m d1
        = (true, XbusParser.parseRecs (XbusParser.payloadList m) {})) ∧
    (∀ (payload : List Nat) (T : Nat), T ∈ XbusParser.knownTags →
      T ∉ XbusParser.tagsOf payload →
      XbusParser.fieldAbsent T (XbusParser.parseRecs payload {}) = true) := by
  constructor
  · intro m d1 d2 hpre hmid
    rw [parseMTData2_accepts m hpre hmid d1, parseMTData2_accepts m hpre hmid d2]
    exact ⟨rfl, rfl⟩
  · intro payload T _ hT
    have hpres := parseRecs_preserve T (XbusParser.fieldAbsent T)
      (fun xdi size body d hx => fieldAbsent_applyRecord T xdi size body d hx)
      payload.length payload le_rfl {} hT
    rw [hpres]
    exact fieldAbsent_default T

theorem run_append (junk : Nat → Nat) (st : Framer.State) (xs ys : List Nat) :
    Framer.run junk st (xs ++ ys)
      = ((Framer.run junk (Framer.run junk st xs).1 ys).1,
         (Framer.run junk st xs).2 ++ (Framer.run junk (Framer.run junk st xs).1 ys).2) := by
  induction xs generalizing st with
  | nil => simp [Framer.run]
  | cons x xs ih =>
    simp only [List.cons_append, Framer.run, ih]
    simp [ih, List.append_assoc]

theorem run_seek_skip (junk : Nat → Nat) (st : Framer.State) (hseek : st.seeking = true) :
    ∀ xs : List Nat, (∀ b ∈ xs, b % 256 ≠ 250) → Framer.run junk st xs = (st, []) := by
  intro xs
  induction xs with
  | nil => intro _; rfl
  | cons x xs ih =>
    intro hx
    have hstep : Framer.step junk st x = (st, none) := by
      rw [Framer.step]
      rw [if_pos hseek, if_neg (hx x (by simp))]
    simp only [Framer.run, hstep, ih fun b hb => hx b (by simp [hb])]
    rfl

theorem run_consume (junk : Nat → Nat) :
    ∀ (xs buf : List Nat) (e : Nat), 4 ≤ buf.length → buf.length < e → e ≤ 1000 →
      buf.length + xs.length = e → (∀ b ∈ xs, b < 256) →
      Framer.run junk ⟨false, buf, e⟩ xs = (⟨true, buf ++ xs, 0⟩, [buf ++ xs]) := by
  intro xs
  induction xs with
  | nil =>
    intro buf e _ hlt _ hlen _
    simp at hlen
    omega
  | cons x xs ih =>
    intro buf e h4 hlt he hlen hb
    have hx : x % 256 = x := Nat.mod_eq_of_lt (hb x (by simp))
    have hlen1 : (buf ++ [x % 256]).length = buf.length + 1 := by simp
    have hlenc : buf.length + (xs.length + 1) = e := by
      simpa using hlen
    have hguard : ¬ (4 ≤ (buf ++ [x % 256]).length ∧ e = 0) := by
      rw [hlen1]
      omega
    by_cases hfin : e ≤ buf.length + 1
    · have hxs : xs = [] := by
        have : xs.length = 0 := by omega
        exact List.length_eq_zero.mp this
      subst hxs
      have hstep : Framer.step junk ⟨false, buf, e⟩ x
          = (⟨true, buf ++ [x % 256], 0⟩, some (buf ++ [x % 256])) := by
        rw [Framer.step]
        simp only [if_neg (by simp : ¬ (false : Bool) = true)]
        rw [if_neg hguard, Framer.finishChecks,
          if_pos ⟨by omega, by rw [hlen1]; omega⟩]
      simp [Framer.run, hstep, hx]
    · have hstep : Framer.step junk ⟨false, buf, e⟩ x
          = (⟨false, buf ++ [x % 256], e⟩, none) := by
        rw [Framer.step]
        simp only [if_neg (by simp : ¬ (false : Bool) = true)]
        rw [if_neg hguard, Framer.finishChecks,
          if_neg (by rw [hlen1]; omega), if_neg (by rw [hlen1]; omega)]
      have hrec := ih (buf ++ [x % 256]) e (by rw [hlen1]; omega) (by rw [hlen1]; omega)
        he (by rw [hlen1]; omega) (fun b hb' => hb b (by simp [hb']))
      rw [hx] at hstep hrec
      simp only [Framer.run, hstep, hrec]
      simp [List.append_assoc]

theorem run_frame (junk : Nat → Nat) (st : Framer.State) (hseek : st.seeking = true)
    (f : List Nat) (hf : Framer.ValidShortFrame f) :
    Framer.run junk st f = (⟨true, f, 0⟩, [f]) := by
  obtain ⟨hp, hlow, hlen, hb, _⟩ := hf
  match f, hlen with
  | b0 :: b1 :: b2 :: b3 :: rest, hlen =>
    have hb0 : b0 = 250 := hp
    subst hb0
    have hb1 : b1 % 256 = b1 := Nat.mod_eq_of_lt (hb b1 (by simp))
    have hb2 : b2 % 256 = b2 := Nat.mod_eq_of_lt (hb b2 (by simp))
    have hb3 : b3 % 256 = b3 := Nat.mod_eq_of_lt (hb b3 (by simp))
    have hg3 : (250 :: b1 :: b2 :: b3 :: rest).getD 3 0 = b3 := rfl
    rw [hg3] at hlen hlow
    have hrest : rest.length = b3 + 1 := by
      simp at hlen
      omega
    have hstep0 : Framer.step junk st 250 = (⟨false, [250], 0⟩, none) := by
      rw [Framer.step]
      rw [if_pos hseek, if_pos rfl]
    have hstep1 : Framer.step junk ⟨false, [250], 0⟩ b1
        = (⟨false, [250, b1], 0⟩, none) := by
      rw [Framer.step]
      simp only [if_neg (by simp : ¬ (false : Bool) = true)]
      rw [if_neg (by simp), Framer.finishChecks, if_neg (by simp),
        if_neg (by simp), hb1]
      rfl
    have hstep2 : Framer.step junk ⟨false, [250, b1], 0⟩ b2
        = (⟨false, [250, b1, b2], 0⟩, none) := by
      rw [Framer.step]
      simp only [if_neg (by simp : ¬ (false : Bool) = true)]
      rw [if_neg (by simp), Framer.finishChecks, if_neg (by simp),
        if_neg (by simp), hb2]
      rfl
    have hraw : Framer.rawLenPartial [250, b1, b2, b3 % 256] junk = b3 + 5 := by
      rw [Framer.rawLenPartial]
      have hread : Framer.readRaw [250, b1, b2, b3 % 256] junk 3 = b3 := by
        rw [Framer.readRaw, if_pos (by simp)]
        simp [hb3]
      rw [hread, if_neg (by omega), Nat.mod_eq_of_lt (by omega)]
    have hstep3 : Framer.step junk ⟨false, [250, b1, b2], 0⟩ b3
        = (⟨false, [250, b1, b2, b3], 0 + (b3 + 5)⟩, none) := by
      rw [Framer.step]
      simp only [if_neg (by simp : ¬ (false : Bool) = true)]
      rw [if_pos (by simp)]
      show (if Framer.rawLenPartial ([250, b1, b2] ++ [b3 % 256]) junk < 5 ∨
          1000 < Framer.rawLenPartial ([250, b1, b2] ++ [b3 % 256]) junk then _ else _) = _
      rw [show ([250, b1, b2] ++ [b3 % 256] : List Nat) = [250, b1, b2, b3 % 256] from rfl,
        hraw, if_neg (by omega), Framer.finishChecks, if_neg (by simp),
        if_neg (by simp), hb3]
      simp
    simp only [Framer.run, hstep0, hstep1, hstep2, hstep3]
    have hcons := run_consume junk rest [250, b1, b2, b3] (0 + (b3 + 5)) (by simp)
      (by simp only [List.length_cons, List.length_nil]; omega) (by omega)
      (by simp only [List.length_cons, List.length_nil]; omega)
      (fun b hb' => hb b (by simp [hb']))
    rw [hcons]
    simp

set_option maxRecDepth 8000 in
/-- C2 (defect witness): fed the valid extended-length frame
`extFrameExample` (length byte `0xFF`, true length 255, total 262 bytes)
byte by byte with the uninitialized raw-buffer bytes reading as zero, the
framer computes the expected total from raw offsets 4–5 before those
bytes have arrived — at buffer size 4 the guard `m_expectedLength == 0`
is about to turn false, so the total is never recomputed — fixes it at
`0 + 0·256 + 7 = 7`, and hands downstream the 7-byte prefix instead of
the complete frame. -/
theorem framer_extended_length_bug :
    (Framer.run Framer.zeroJunk Framer.initState Framer.extFrameExample).2
        = [Framer.extFrameExample.take 7] ∧
    (Framer.run Framer.zeroJunk Framer.initState Framer.extFrameExample).2
        ≠ [Framer.extFrameExample] := by
  constructor
  · decide
  · decide

/-- C3 counterexample: the claim quantifies over every 5-byte gap, but a
gap containing a `0xFA` byte (here `FA 00 00 10 00`) makes the framer
lock onto a bogus frame start whose length byte `0x10` swallows the whole
second frame, so only the first frame is ever completed. -/
theorem framer_resync_cex :
    Framer.ValidShortFrame Framer.wakeupFrame ∧
    Framer.ValidShortFrame Framer.resetAckFrame ∧
    Framer.gapWithPreamble.length = 5 ∧
    ¬ (Framer.run Framer.zeroJunk Framer.initState
        (Framer.wakeupFrame ++ Framer.gapWithPreamble ++ Framer.resetAckFrame)).2
      = [Framer.wakeupFrame, Framer.resetAckFrame] := by
  refine ⟨⟨by decide, by decide, by decide, by decide, by decide⟩,
    ⟨by decide, by decide, by decide, by decide, by decide⟩, by decide, by decide⟩

/-- C3 (amended): for every two valid non-extended frames and every
5-byte gap none of whose bytes is the preamble `0xFA`, feeding
`F1 ++ R ++ F2` to the framer started in `WaitingForPreamble` completes
exactly the two frames `F1` and `F2`, whatever the uninitialized raw
buffer memory holds. -/
theorem framer_resync (f1 f2 r : List Nat) (junk : Nat → Nat)
    (h1 : Framer.ValidShortFrame f1) (h2 : Framer.ValidShortFrame f2)
    (hr : r.length = 5) (hrb : ∀ b ∈ r, b < 256) (hrp : ∀ b ∈ r, b ≠ 250) :
    (Framer.run junk Framer.initState (f1 ++ r ++ f2)).2 = [f1, f2] := by
  have hA := run_frame junk Framer.initState rfl f1 h1
  have hB := run_seek_skip junk ⟨true, f1, 0⟩ rfl r
    (fun b hb => by rw [Nat.mod_eq_of_lt (hrb b hb)]; exact hrp b hb)
  have hC := run_frame junk ⟨true, f1, 0⟩ rfl f2 h2
  rw [run_append, run_append, hA]
  simp only [hB, hC]
  simp

/-- Witness for the amended resynchronization at two concrete 5-byte
frames and the all-zero gap. -/
theorem framer_resync_witness :
    (Framer.run Framer.zeroJunk Framer.initState
        (Framer.wakeupFrame ++ [0, 0, 0, 0, 0] ++ Framer.resetAckFrame)).2
      = [Framer.wakeupFrame, Framer.resetAckFrame] :=
  framer_resync Framer.wakeupFrame Framer.resetAckFrame [0, 0, 0, 0, 0] Framer.zeroJunk
    ⟨by decide, by decide, by decide, by decide, by decide⟩
    ⟨by decide, by decide, by decide, by decide, by decide⟩
    (by decide) (by decide) (by decide)
